import Mathlib

/-!
The page layer of zathura, zathura/page.c.

A shallow embedding of the page object and of the dispatch from the public
page operations to the functions of a plugin.

Conventions of the embedding:

* a C pointer that may be `NULL` is an `Option`; `none` is `NULL`;
* objects the page layer never looks into (the backend data, lists, images,
  cairo handles, documents) are represented by their non-null address, a `Ptr`;
* the caller hands every fallible operation an error slot `zathura_error_t*`:
  `none` is a `NULL` pointer, `some v` a slot currently holding `v`; each
  operation returns the slot as it is after the call;
* every call through the function table of the plugin, and every release of
  memory, is appended to a trace, in program order.
-/

namespace Zathura

/-- Address of an object that the page layer stores and forwards without looking into it. -/
abbrev Ptr : Type := Nat

/-- A finite C double, represented by the rational number it stands for. Not-a-number,
the infinities and the negative zero cannot be stored in a field of this type. -/
abbrev double : Type := Rat

/-- Modelled from the spec: the enumeration of result codes lives in types.h, which is
not among the sources. The spec lists the kinds Ok, InvalidArguments, OutOfMemory and
NotImplemented, and any other code that a backend returns. -/
inductive zathura_error_t where
  | ZATHURA_ERROR_OK
  | ZATHURA_ERROR_INVALID_ARGUMENTS
  | ZATHURA_ERROR_OUT_OF_MEMORY
  | ZATHURA_ERROR_NOT_IMPLEMENTED
  | ZATHURA_ERROR_BACKEND (code : Nat)
  deriving DecidableEq

open zathura_error_t

/-- The rectangle argument of the text and selection queries: the four doubles
that page.c reads from it. -/
structure zathura_rectangle_t where
  x1 : double
  y1 : double
  x2 : double
  y2 : double
  deriving DecidableEq

/-- The page object, field by field as `struct zathura_page_s`. -/
structure zathura_page_t where
  /-- Parent document, a non-owning pointer. -/
  document : Option Ptr
  /-- Custom data, owned by the plugin. -/
  data : Option Ptr
  /-- Page label. -/
  label : Option String
  /-- Page height. -/
  height : double
  /-- Page width. -/
  width : double
  /-- Page number, an unsigned int. -/
  index : Nat
  /-- Page is visible. -/
  visible : Bool
  /-- Page label is the same as the page number. -/
  label_is_number : Bool
  deriving DecidableEq

/-- What a plugin function with an error out-parameter hands back: the returned
pointer and the code it stored through the error pointer (`none` when it stored nothing). -/
structure backend_result (α : Type) where
  ret : Option α
  error : Option zathura_error_t

/-- Modelled from the spec: plugins are not among the sources. What page_init leaves
behind: its return code and the backend data, width and height that it populated on
the new page through the public setters. -/
structure page_init_result where
  ret : zathura_error_t
  data : Option Ptr
  width : double
  height : double

/-- What page_get_label hands back: its return code and the string stored through the
label out-parameter (`none` when it left the zeroed field alone). -/
structure page_get_label_result where
  ret : zathura_error_t
  label : Option String

/-- Modelled from the spec: the function table `zathura_plugin_functions_t` is declared in
plugin-api.h, which is not among the sources. One slot per operation that page.c calls,
with the argument lists of the call sites; an optional slot is `none` when the plugin
leaves it `NULL`. The slots page_init, page_clear and page_render_cairo are called
without a check and are therefore mandatory. -/
structure zathura_plugin_functions_t where
  page_init : zathura_page_t → page_init_result
  page_clear : zathura_page_t → Option Ptr → zathura_error_t
  page_search_text :
    Option (zathura_page_t → Option Ptr → String → Option zathura_error_t → backend_result Ptr)
  page_links_get :
    Option (zathura_page_t → Option Ptr → Option zathura_error_t → backend_result Ptr)
  page_form_fields_get :
    Option (zathura_page_t → Option Ptr → Option zathura_error_t → backend_result Ptr)
  page_images_get :
    Option (zathura_page_t → Option Ptr → Option zathura_error_t → backend_result Ptr)
  page_image_get_cairo :
    Option (zathura_page_t → Option Ptr → Ptr → Option zathura_error_t → backend_result Ptr)
  page_get_text :
    Option (zathura_page_t → Option Ptr → zathura_rectangle_t → Option zathura_error_t →
      backend_result String)
  page_get_selection :
    Option (zathura_page_t → Option Ptr → zathura_rectangle_t → Option zathura_error_t →
      backend_result Ptr)
  page_render_cairo : zathura_page_t → Option Ptr → Ptr → Bool → zathura_error_t
  page_get_label : Option (zathura_page_t → Option Ptr → page_get_label_result)
  page_get_signatures :
    Option (zathura_page_t → Option Ptr → Option zathura_error_t → backend_result Ptr)

/-- A plugin, as far as the page layer is concerned: its function table. -/
structure zathura_plugin_t where
  functions : zathura_plugin_functions_t

/-- A document, as far as the page layer is concerned: the plugin that opened it. -/
structure zathura_document_t where
  plugin : zathura_plugin_t

/-- The documents in memory, by address. -/
abbrev Documents : Type := Ptr → zathura_document_t

/-- Modelled from the spec: document.c is not among the sources. Reads the plugin of the
document at the given address. -/
def zathura_document_get_plugin (docs : Documents) (document : Ptr) : zathura_plugin_t :=
  (docs document).plugin

/-- Modelled from the spec: plugin.c is not among the sources. Reads the function table
of a plugin. -/
def zathura_plugin_get_functions (plugin : zathura_plugin_t) : zathura_plugin_functions_t :=
  plugin.functions

/-- One observable step of the page layer: a call through the function table, with the
arguments of the call site, or a release of memory. -/
inductive Event where
  | page_init (page : zathura_page_t)
  | page_clear (page : zathura_page_t) (data : Option Ptr)
  | page_get_label (page : zathura_page_t) (data : Option Ptr)
  | page_search_text (page : zathura_page_t) (data : Option Ptr) (text : String)
      (error : Option zathura_error_t)
  | page_links_get (page : zathura_page_t) (data : Option Ptr) (error : Option zathura_error_t)
  | page_form_fields_get (page : zathura_page_t) (data : Option Ptr)
      (error : Option zathura_error_t)
  | page_images_get (page : zathura_page_t) (data : Option Ptr) (error : Option zathura_error_t)
  | page_image_get_cairo (page : zathura_page_t) (data : Option Ptr) (image : Ptr)
      (error : Option zathura_error_t)
  | page_get_text (page : zathura_page_t) (data : Option Ptr) (rectangle : zathura_rectangle_t)
      (error : Option zathura_error_t)
  | page_get_selection (page : zathura_page_t) (data : Option Ptr)
      (rectangle : zathura_rectangle_t) (error : Option zathura_error_t)
  | page_render_cairo (page : zathura_page_t) (data : Option Ptr) (cairo : Ptr) (printing : Bool)
  | page_get_signatures (page : zathura_page_t) (data : Option Ptr)
      (error : Option zathura_error_t)
  | g_free_label (label : Option String)
  | g_free_page (page : zathura_page_t)
  | girara_list_free (list : Option Ptr)
  deriving DecidableEq

/-- Is the event a call into the backend, as opposed to a release of memory. -/
def Event.is_backend_call : Event → Bool
  | .g_free_label _ => false
  | .g_free_page _ => false
  | .girara_list_free _ => false
  | _ => true

/-- Is the event a call of the page_clear slot. -/
def Event.is_page_clear : Event → Bool
  | .page_clear _ _ => true
  | _ => false

/-- Is the event a call of the page_get_label slot. -/
def Event.is_page_get_label : Event → Bool
  | .page_get_label _ _ => true
  | _ => false

/-- Is the event a call of the page_render_cairo slot. -/
def Event.is_page_render_cairo : Event → Bool
  | .page_render_cairo _ _ _ _ => true
  | _ => false

/-- Is the event the release of a label string. -/
def Event.is_g_free_label : Event → Bool
  | .g_free_label _ => true
  | _ => false

/-- Is the event the release of a page object. -/
def Event.is_g_free_page : Event → Bool
  | .g_free_page _ => true
  | _ => false

/-- Result of an operation that reports through an error slot: the returned value, the
slot of the caller after the call, and the trace of the call. -/
structure call_result (α : Type) where
  ret : α
  error : Option zathura_error_t
  trace : List Event

/-- Result of an operation that returns its code directly, with the trace of the call. -/
structure code_result where
  ret : zathura_error_t
  trace : List Event

/-- The statement `if (error != NULL) { *error = code; }`. -/
def set_error (error : Option zathura_error_t) (code : zathura_error_t) :
    Option zathura_error_t :=
  match error with
  | none => none
  | some _ => some code

/-- The slot of the caller after a plugin function was handed the pointer itself: the
code the plugin stored, if it stored one and the pointer is not `NULL`. -/
def backend_store (error : Option zathura_error_t) (stored : Option zathura_error_t) :
    Option zathura_error_t :=
  match error, stored with
  | some _, some code => some code
  | _, _ => error

/-- The libc comparison of two strings: zero exactly when they are equal, otherwise the
sign of the lexicographic comparison of their characters. -/
def strcmp (a b : String) : Int :=
  if a = b then 0 else if a.data < b.data then -1 else 1

/-- The glib rendering of a double with `%.17g`, at the values page.c passes: an unsigned
32-bit integer converted to double, which is rendered as its decimal digits. -/
def g_ascii_dtostr (d : Nat) : String :=
  Nat.repr d

/-- Width of `unsigned int`. -/
def UINT_WIDTH : Nat := 32

/-- Translation of `zathura_page_free`. -/
def zathura_page_free (docs : Documents) (page : Option zathura_page_t) : code_result :=
  match page with
  | none => ⟨ZATHURA_ERROR_INVALID_ARGUMENTS, []⟩
  | some p =>
    match p.document with
    | none => ⟨ZATHURA_ERROR_INVALID_ARGUMENTS, [Event.g_free_page p]⟩
    | some document =>
      let plugin := zathura_document_get_plugin docs document
      let functions := zathura_plugin_get_functions plugin
      let error := functions.page_clear p p.data
      ⟨error, [Event.page_clear p p.data, Event.g_free_label p.label, Event.g_free_page p]⟩

/-- The page object of `zathura_page_new` right before the plugin is asked to initialise
it: zeroed by the allocation, then index, visible, document and label_is_number assigned. -/
def page_before_init (document : Ptr) (index : Nat) : zathura_page_t :=
  { document := some document, data := none, label := none, height := 0, width := 0,
    index := index, visible := false, label_is_number := false }

/-- The page object once page_init has populated backend data, width and height. -/
def page_after_init (page : zathura_page_t) (r : page_init_result) : zathura_page_t :=
  { page with data := r.data, width := r.width, height := r.height }

/-- Translation of `zathura_page_new`. The flag `g_try_malloc0` tells whether the
allocation of the page object succeeds. -/
def zathura_page_new (docs : Documents) (g_try_malloc0 : Bool) (document : Option Ptr)
    (index : Nat) (error : Option zathura_error_t) : call_result (Option zathura_page_t) :=
  match document with
  | none => ⟨none, set_error error ZATHURA_ERROR_INVALID_ARGUMENTS, []⟩
  | some d =>
    if g_try_malloc0 = false then
      ⟨none, set_error error ZATHURA_ERROR_OUT_OF_MEMORY, []⟩
    else
      let page0 := page_before_init d index
      let plugin := zathura_document_get_plugin docs d
      let functions := zathura_plugin_get_functions plugin
      let r := functions.page_init page0
      let page1 := page_after_init page0 r
      if r.ret ≠ ZATHURA_ERROR_OK then
        ⟨none, set_error error r.ret,
          Event.page_init page0 :: (zathura_page_free docs (some page1)).trace⟩
      else
        match functions.page_get_label with
        | none => ⟨some page1, error, [Event.page_init page0]⟩
        | some page_get_label =>
          let l := page_get_label page1 page1.data
          let page2 : zathura_page_t := { page1 with label := l.label }
          if l.ret ≠ ZATHURA_ERROR_OK then
            ⟨none, set_error error l.ret,
              Event.page_init page0 :: Event.page_get_label page1 page1.data ::
                (zathura_page_free docs (some page2)).trace⟩
          else
            match page2.label with
            | none =>
              ⟨some page2, error, [Event.page_init page0, Event.page_get_label page1 page1.data]⟩
            | some label =>
              let page_number_string := g_ascii_dtostr ((index + 1) % 2 ^ UINT_WIDTH)
              ⟨some { page2 with label_is_number := decide (strcmp label page_number_string = 0) },
                error, [Event.page_init page0, Event.page_get_label page1 page1.data]⟩

/-- Translation of `zathura_page_get_document`. -/
def zathura_page_get_document (page : Option zathura_page_t) : Option Ptr :=
  match page with
  | none => none
  | some p => p.document

/-- Translation of `zathura_page_get_index`. -/
def zathura_page_get_index (page : Option zathura_page_t) : Nat :=
  match page with
  | none => 0
  | some p => p.index

/-- Translation of `zathura_page_get_width`. -/
def zathura_page_get_width (page : Option zathura_page_t) : double :=
  match page with
  | none => -1
  | some p => p.width

/-- Translation of `zathura_page_set_width`. -/
def zathura_page_set_width (page : Option zathura_page_t) (width : double) :
    Option zathura_page_t :=
  match page with
  | none => none
  | some p => some { p with width := width }

/-- Translation of `zathura_page_get_height`. -/
def zathura_page_get_height (page : Option zathura_page_t) : double :=
  match page with
  | none => -1
  | some p => p.height

/-- Translation of `zathura_page_set_height`. -/
def zathura_page_set_height (page : Option zathura_page_t) (height : double) :
    Option zathura_page_t :=
  match page with
  | none => none
  | some p => some { p with height := height }

/-- Translation of `zathura_page_get_visibility`. -/
def zathura_page_get_visibility (page : Option zathura_page_t) : Bool :=
  match page with
  | none => false
  | some p => p.visible

/-- Translation of `zathura_page_set_visibility`. -/
def zathura_page_set_visibility (page : Option zathura_page_t) (visibility : Bool) :
    Option zathura_page_t :=
  match page with
  | none => none
  | some p => some { p with visible := visibility }

/-- Translation of `zathura_page_get_data`. -/
def zathura_page_get_data (page : Option zathura_page_t) : Option Ptr :=
  match page with
  | none => none
  | some p => p.data

/-- Translation of `zathura_page_set_data`. -/
def zathura_page_set_data (page : Option zathura_page_t) (data : Option Ptr) :
    Option zathura_page_t :=
  match page with
  | none => none
  | some p => some { p with data := data }

/-- Translation of `zathura_page_get_label`. -/
def zathura_page_get_label (page : Option zathura_page_t) (error : Option zathura_error_t) :
    call_result (Option String) :=
  match page with
  | none => ⟨none, set_error error ZATHURA_ERROR_INVALID_ARGUMENTS, []⟩
  | some p =>
    match p.document with
    | none => ⟨none, set_error error ZATHURA_ERROR_INVALID_ARGUMENTS, []⟩
    | some _ => ⟨p.label, error, []⟩

/-- Translation of `zathura_page_label_is_number`. -/
def zathura_page_label_is_number (page : Option zathura_page_t) : Bool :=
  match page with
  | none => false
  | some p => p.label_is_number

/-- Translation of `zathura_page_search_text`. -/
def zathura_page_search_text (docs : Documents) (page : Option zathura_page_t) (text : Option String)
    (error : Option zathura_error_t) : call_result (Option Ptr) :=
  match page with
  | none => ⟨none, set_error error ZATHURA_ERROR_INVALID_ARGUMENTS, []⟩
  | some p =>
    match p.document, text with
    | some document, some t =>
      let plugin := zathura_document_get_plugin docs document
      let functions := zathura_plugin_get_functions plugin
      match functions.page_search_text with
      | none => ⟨none, set_error error ZATHURA_ERROR_NOT_IMPLEMENTED, []⟩
      | some page_search_text =>
        let r := page_search_text p p.data t error
        ⟨r.ret, backend_store error r.error, [Event.page_search_text p p.data t error]⟩
    | _, _ => ⟨none, set_error error ZATHURA_ERROR_INVALID_ARGUMENTS, []⟩

/-- Translation of `zathura_page_links_get`. -/
def zathura_page_links_get (docs : Documents) (page : Option zathura_page_t)
    (error : Option zathura_error_t) : call_result (Option Ptr) :=
  match page with
  | none => ⟨none, set_error error ZATHURA_ERROR_INVALID_ARGUMENTS, []⟩
  | some p =>
    match p.document with
    | some document =>
      let plugin := zathura_document_get_plugin docs document
      let functions := zathura_plugin_get_functions plugin
      match functions.page_links_get with
      | none => ⟨none, set_error error ZATHURA_ERROR_NOT_IMPLEMENTED, []⟩
      | some page_links_get =>
        let r := page_links_get p p.data error
        ⟨r.ret, backend_store error r.error, [Event.page_links_get p p.data error]⟩
    | none => ⟨none, set_error error ZATHURA_ERROR_INVALID_ARGUMENTS, []⟩

/-- Translation of `zathura_page_form_fields_get`. -/
def zathura_page_form_fields_get (docs : Documents) (page : Option zathura_page_t)
    (error : Option zathura_error_t) : call_result (Option Ptr) :=
  match page with
  | none => ⟨none, set_error error ZATHURA_ERROR_INVALID_ARGUMENTS, []⟩
  | some p =>
    match p.document with
    | some document =>
      let plugin := zathura_document_get_plugin docs document
      let functions := zathura_plugin_get_functions plugin
      match functions.page_form_fields_get with
      | none => ⟨none, set_error error ZATHURA_ERROR_NOT_IMPLEMENTED, []⟩
      | some page_form_fields_get =>
        let r := page_form_fields_get p p.data error
        ⟨r.ret, backend_store error r.error, [Event.page_form_fields_get p p.data error]⟩
    | none => ⟨none, set_error error ZATHURA_ERROR_INVALID_ARGUMENTS, []⟩

/-- Translation of `zathura_page_images_get`. -/
def zathura_page_images_get (docs : Documents) (page : Option zathura_page_t)
    (error : Option zathura_error_t) : call_result (Option Ptr) :=
  match page with
  | none => ⟨none, set_error error ZATHURA_ERROR_INVALID_ARGUMENTS, []⟩
  | some p =>
    match p.document with
    | some document =>
      let plugin := zathura_document_get_plugin docs document
      let functions := zathura_plugin_get_functions plugin
      match functions.page_images_get with
      | none => ⟨none, set_error error ZATHURA_ERROR_NOT_IMPLEMENTED, []⟩
      | some page_images_get =>
        let r := page_images_get p p.data error
        ⟨r.ret, backend_store error r.error, [Event.page_images_get p p.data error]⟩
    | none => ⟨none, set_error error ZATHURA_ERROR_INVALID_ARGUMENTS, []⟩

/-- Translation of `zathura_page_image_get_cairo`. -/
def zathura_page_image_get_cairo (docs : Documents) (page : Option zathura_page_t) (image : Option Ptr)
    (error : Option zathura_error_t) : call_result (Option Ptr) :=
  match page with
  | none => ⟨none, set_error error ZATHURA_ERROR_INVALID_ARGUMENTS, []⟩
  | some p =>
    match p.document, image with
    | some document, some i =>
      let plugin := zathura_document_get_plugin docs document
      let functions := zathura_plugin_get_functions plugin
      match functions.page_image_get_cairo with
      | none => ⟨none, set_error error ZATHURA_ERROR_NOT_IMPLEMENTED, []⟩
      | some page_image_get_cairo =>
        let r := page_image_get_cairo p p.data i error
        ⟨r.ret, backend_store error r.error, [Event.page_image_get_cairo p p.data i error]⟩
    | _, _ => ⟨none, set_error error ZATHURA_ERROR_INVALID_ARGUMENTS, []⟩

/-- Translation of `zathura_page_get_text`. -/
def zathura_page_get_text (docs : Documents) (page : Option zathura_page_t) (rectangle : zathura_rectangle_t)
    (error : Option zathura_error_t) : call_result (Option String) :=
  match page with
  | none => ⟨none, set_error error ZATHURA_ERROR_INVALID_ARGUMENTS, []⟩
  | some p =>
    match p.document with
    | some document =>
      let plugin := zathura_document_get_plugin docs document
      let functions := zathura_plugin_get_functions plugin
      match functions.page_get_text with
      | none => ⟨none, set_error error ZATHURA_ERROR_NOT_IMPLEMENTED, []⟩
      | some page_get_text =>
        let r := page_get_text p p.data rectangle error
        ⟨r.ret, backend_store error r.error, [Event.page_get_text p p.data rectangle error]⟩
    | none => ⟨none, set_error error ZATHURA_ERROR_INVALID_ARGUMENTS, []⟩

/-- Translation of `zathura_page_get_selection`. -/
def zathura_page_get_selection (docs : Documents) (page : Option zathura_page_t) (rectangle : zathura_rectangle_t)
    (error : Option zathura_error_t) : call_result (Option Ptr) :=
  match page with
  | none => ⟨none, set_error error ZATHURA_ERROR_INVALID_ARGUMENTS, []⟩
  | some p =>
    match p.document with
    | some document =>
      let plugin := zathura_document_get_plugin docs document
      let functions := zathura_plugin_get_functions plugin
      match functions.page_get_selection with
      | none => ⟨none, set_error error ZATHURA_ERROR_NOT_IMPLEMENTED, []⟩
      | some page_get_selection =>
        let r := page_get_selection p p.data rectangle error
        ⟨r.ret, backend_store error r.error, [Event.page_get_selection p p.data rectangle error]⟩
    | none => ⟨none, set_error error ZATHURA_ERROR_INVALID_ARGUMENTS, []⟩

/-- Translation of `zathura_page_render`. -/
def zathura_page_render (docs : Documents) (page : Option zathura_page_t) (cairo : Option Ptr)
    (printing : Bool) : code_result :=
  match page with
  | none => ⟨ZATHURA_ERROR_INVALID_ARGUMENTS, []⟩
  | some p =>
    match p.document, cairo with
    | some document, some c =>
      let plugin := zathura_document_get_plugin docs document
      let functions := zathura_plugin_get_functions plugin
      ⟨functions.page_render_cairo p p.data c printing,
        [Event.page_render_cairo p p.data c printing]⟩
    | _, _ => ⟨ZATHURA_ERROR_INVALID_ARGUMENTS, []⟩

/-- Translation of `zathura_page_get_signatures`. The plugin is handed the address of the
local `e`, which holds `ZATHURA_ERROR_OK` before the call. -/
def zathura_page_get_signatures (docs : Documents) (page : Option zathura_page_t)
    (error : Option zathura_error_t) : call_result (Option Ptr) :=
  match page with
  | none => ⟨none, set_error error ZATHURA_ERROR_INVALID_ARGUMENTS, []⟩
  | some p =>
    match p.document with
    | some document =>
      let plugin := zathura_document_get_plugin docs document
      let functions := zathura_plugin_get_functions plugin
      match functions.page_get_signatures with
      | none => ⟨none, set_error error ZATHURA_ERROR_NOT_IMPLEMENTED, []⟩
      | some page_get_signatures =>
        let r := page_get_signatures p p.data (some ZATHURA_ERROR_OK)
        let e := r.error.getD ZATHURA_ERROR_OK
        let ret := r.ret
        if e ≠ ZATHURA_ERROR_OK then
          ⟨none, set_error error e,
            [Event.page_get_signatures p p.data (some ZATHURA_ERROR_OK),
              Event.girara_list_free ret]⟩
        else
          ⟨ret, error, [Event.page_get_signatures p p.data (some ZATHURA_ERROR_OK)]⟩
    | none => ⟨none, set_error error ZATHURA_ERROR_INVALID_ARGUMENTS, []⟩

/-- The page object of `zathura_page_new` once page_init of the plugin of the document has
run on it, the state in which it is handed to page_get_label. -/
def page_populated (docs : Documents) (document : Ptr) (index : Nat) : zathura_page_t :=
  page_after_init (page_before_init document index)
    ((zathura_plugin_get_functions (zathura_document_get_plugin docs document)).page_init
      (page_before_init document index))

/-- One call of a public setter of page.c, the only public operations that write to a field
of the page object. -/
inductive setter_call where
  | set_width (width : double)
  | set_height (height : double)
  | set_visibility (visibility : Bool)
  | set_data (data : Option Ptr)
  deriving DecidableEq

/-- Is the call a call of `zathura_page_set_data`. -/
def setter_call.is_set_data : setter_call → Bool
  | .set_data _ => true
  | _ => false

/-- The page after one setter call. -/
def run_setter (page : Option zathura_page_t) : setter_call → Option zathura_page_t
  | .set_width width => zathura_page_set_width page width
  | .set_height height => zathura_page_set_height page height
  | .set_visibility visibility => zathura_page_set_visibility page visibility
  | .set_data data => zathura_page_set_data page data

/-- The page after a sequence of setter calls, in order. -/
def run_setters (page : Option zathura_page_t) (calls : List setter_call) :
    Option zathura_page_t :=
  calls.foldl run_setter page

/-- Result of one of the two release operations that page.c declares for lists: the code
returned and the trace of the call. -/
abbrev release_result : Type := code_result

/-- Translation of `zathura_page_links_free`, whose body is `return false;`: the constant
false, of value 0, converted to the enumeration. The argument `of_value` is the numbering
of the enumeration fixed in types.h, which is not among the sources: the enumerator of each
numeric value. -/
def zathura_page_links_free (of_value : Nat → zathura_error_t) (_list : Option Ptr) :
    release_result :=
  ⟨of_value 0, []⟩

/-- Translation of `zathura_page_form_fields_free`. -/
def zathura_page_form_fields_free (_list : Option Ptr) : release_result :=
  ⟨ZATHURA_ERROR_NOT_IMPLEMENTED, []⟩

/-- The value that `%d` prints when it is handed an unsigned int: the bits read as a signed
integer in two-complement form. -/
def int_of_unsigned (v : Nat) : Int :=
  if v < 2 ^ (UINT_WIDTH - 1) then (v : Int) else (v : Int) - 2 ^ UINT_WIDTH

/-- The rendering of `%d`. -/
def printf_d (i : Int) : String :=
  match i with
  | Int.ofNat m => Nat.repr m
  | Int.negSucc m => "-" ++ Nat.repr (m + 1)

/-- The natural number nearest to n / d, the even one of the two when n / d lies halfway. -/
def round_half_even (n d : Nat) : Nat :=
  if 2 * (n % d) < d then n / d
  else if d < 2 * (n % d) then n / d + 1
  else if (n / d) % 2 = 0 then n / d
  else n / d + 1

/-- The rendering of `%.2f` of a finite double: sign, integer digits, a point and two
decimals, the exact value rounded to the nearest hundredth, to the even one on a tie. -/
def printf_2f (x : double) : String :=
  let hundredths := round_half_even (x.num.natAbs * 100) x.den
  (if x.num < 0 then "-" else "") ++ Nat.repr (hundredths / 100) ++ "." ++
    Nat.repr (hundredths % 100 / 10) ++ Nat.repr (hundredths % 10)

/-- The floor of the binary logarithm of n, by halving; the fuel bounds the number of
halvings and the last argument counts them. -/
def floor_log2_fuel : Nat → Nat → Nat → Nat
  | 0, _, count => count
  | fuel + 1, n, count => if n < 2 then count else floor_log2_fuel fuel (n / 2) (count + 1)

/-- The floor of the binary logarithm of a positive natural number. -/
def floor_log2 (n : Nat) : Nat :=
  floor_log2_fuel n n 0

/-- The binary exponent e of the positive rational n / d: 2 ^ e ≤ n / d < 2 ^ (e + 1). -/
def binary_exponent (n d : Nat) : Int :=
  if d * 2 ^ floor_log2 n ≤ n * 2 ^ floor_log2 d then
    (floor_log2 n : Int) - (floor_log2 d : Int)
  else
    (floor_log2 n : Int) - (floor_log2 d : Int) - 1

/-- The result of an arithmetic operation on finite doubles: a finite double again, or an
infinity when the rounded result leaves the range of the format. -/
inductive double_value where
  | finite (x : double)
  | infinite (negative : Bool)
  deriving DecidableEq

/-- Rounding of an exact result to the binary64 format in the default rounding mode. The
exponent e is the binary exponent of the value, not below -1022; the value is rounded to the
nearest multiple m * 2 ^ (e - 52), to the even m on a tie, so that m has at most 53 bits
(m = 2 ^ 53 when the rounding carries into the next binade). The result is an infinity when
m * 2 ^ (e - 52) reaches 2 ^ 1024, that is when e is 1024 or more, or e is 1023 and m is
2 ^ 53. -/
def round_to_double (q : Rat) : double_value :=
  if q.num = 0 then double_value.finite 0
  else
    let n := q.num.natAbs
    let d := q.den
    let e := max (binary_exponent n d) (-1022)
    let s : Int := 52 - e
    let m := round_half_even (n * 2 ^ s.toNat) (d * 2 ^ (-s).toNat)
    if 1024 ≤ e ∨ (e = 1023 ∧ 2 ^ 53 ≤ m) then
      double_value.infinite (decide (q.num < 0))
    else
      double_value.finite
        (mkRat ((if q.num < 0 then -1 else 1) * ((m * 2 ^ (-s).toNat : Nat) : Int))
          (2 ^ s.toNat))

/-- The subtraction of two finite doubles: the exact difference, rounded once. -/
def double_sub (a b : double) : double_value :=
  round_to_double (a - b)

/-- The rendering of `%.2f` of the result of an operation on doubles. -/
def printf_2f_value : double_value → String
  | double_value.finite x => printf_2f x
  | double_value.infinite false => "inf"
  | double_value.infinite true => "-inf"

/-- What `snprintf` leaves behind: the text stored in the buffer in front of the terminator,
and the returned count. -/
structure snprintf_result where
  buffer : String
  ret : Nat
  deriving DecidableEq

/-- The libc function `snprintf` applied to an already formatted text of one-byte
characters: at most size - 1 bytes are stored, the length of the whole text is returned. -/
def snprintf (size : Nat) (text : String) : snprintf_result :=
  ⟨String.mk (text.data.take (size - 1)), text.data.length⟩

/-- The page number as `zathura_page_get_region` prints it: `page->index + 1` computed in
unsigned int and handed to `%d`. -/
def region_page_number (page : zathura_page_t) : Int :=
  int_of_unsigned ((page.index + 1) % 2 ^ UINT_WIDTH)

/-- The text that the format string of `zathura_page_get_region` produces: the page
number, the two coordinates that are printed as they are, and the two differences, each
computed in double arithmetic before it is printed. -/
def region_text (page : zathura_page_t) (rectangle : zathura_rectangle_t) : String :=
  "page=" ++ printf_d (region_page_number page) ++ ",trim=" ++
    printf_2f rectangle.x1 ++ "bp " ++
    printf_2f_value (double_sub page.height rectangle.y2) ++ "bp " ++
    printf_2f_value (double_sub page.width rectangle.x2) ++ "bp " ++
    printf_2f rectangle.y1 ++ "bp,clip"

/-- Translation of `zathura_page_get_region`. Page and rectangle are dereferenced without a
check, so both are present; the result is the content of the buffer and the returned
count. -/
def zathura_page_get_region (page : zathura_page_t) (rectangle : zathura_rectangle_t) :
    snprintf_result :=
  snprintf 64 (region_text page rectangle)

/-! Concrete plugins and pages, used to run the operations on explicit inputs. -/

/-- A plugin that implements the mandatory slots only. -/
def minimal_functions : zathura_plugin_functions_t :=
  { page_init := fun _ => ⟨ZATHURA_ERROR_OK, some 4096, 612, 792⟩
    page_clear := fun _ _ => ZATHURA_ERROR_OK
    page_search_text := none
    page_links_get := none
    page_form_fields_get := none
    page_images_get := none
    page_image_get_cairo := none
    page_get_text := none
    page_get_selection := none
    page_render_cairo := fun _ _ _ _ => ZATHURA_ERROR_OK
    page_get_label := none
    page_get_signatures := none }

/-- A plugin that implements every slot; every call succeeds and stores the success code. -/
def full_functions : zathura_plugin_functions_t :=
  { page_init := fun _ => ⟨ZATHURA_ERROR_OK, some 4096, 612, 792⟩
    page_clear := fun _ _ => ZATHURA_ERROR_OK
    page_search_text := some (fun _ _ _ _ => ⟨some 501, some ZATHURA_ERROR_OK⟩)
    page_links_get := some (fun _ _ _ => ⟨some 502, some ZATHURA_ERROR_OK⟩)
    page_form_fields_get := some (fun _ _ _ => ⟨some 503, some ZATHURA_ERROR_OK⟩)
    page_images_get := some (fun _ _ _ => ⟨some 504, some ZATHURA_ERROR_OK⟩)
    page_image_get_cairo := some (fun _ _ _ _ => ⟨some 505, some ZATHURA_ERROR_OK⟩)
    page_get_text := some (fun _ _ _ _ => ⟨some "text", some ZATHURA_ERROR_OK⟩)
    page_get_selection := some (fun _ _ _ _ => ⟨some 507, some ZATHURA_ERROR_OK⟩)
    page_render_cairo := fun _ _ _ _ => ZATHURA_ERROR_OK
    page_get_label := some (fun _ _ => ⟨ZATHURA_ERROR_OK, some "1"⟩)
    page_get_signatures := some (fun _ _ _ => ⟨some 508, some ZATHURA_ERROR_OK⟩) }

/-- A memory in which every document was opened by the minimal plugin. -/
def minimal_docs : Documents := fun _ => ⟨⟨minimal_functions⟩⟩

/-- A memory in which every document was opened by the full plugin. -/
def full_docs : Documents := fun _ => ⟨⟨full_functions⟩⟩

/-- A page of the document at address 7, as a plugin leaves it after construction. -/
def sample_page : zathura_page_t :=
  { document := some 7, data := some 4096, label := some "1", height := 792, width := 612,
    index := 0, visible := false, label_is_number := true }

/-- A rectangle on the sample page. -/
def sample_rectangle : zathura_rectangle_t :=
  { x1 := 10, y1 := 20, x2 := 90, y2 := 180 }

/-- A page object whose document pointer is `NULL`. -/
def orphan_page : zathura_page_t :=
  { sample_page with document := none }

/-- A plugin whose signature slot hands back a list together with a failure code. -/
def broken_signatures_functions : zathura_plugin_functions_t :=
  { full_functions with
    page_get_signatures := some (fun _ _ _ => ⟨some 508, some (ZATHURA_ERROR_BACKEND 3)⟩) }

/-- A memory in which every document was opened by the plugin with the broken signature
slot. -/
def broken_signatures_docs : Documents := fun _ => ⟨⟨broken_signatures_functions⟩⟩

/-- A plugin whose page_init stores its data and then fails with backend code 1. -/
def failing_init_functions : zathura_plugin_functions_t :=
  { full_functions with page_init := fun _ => ⟨ZATHURA_ERROR_BACKEND 1, some 4096, 0, 0⟩ }

/-- A memory in which every document was opened by the plugin with the failing page_init. -/
def failing_init_docs : Documents := fun _ => ⟨⟨failing_init_functions⟩⟩

/-- A plugin whose label slot succeeds and stores the given label. -/
def label_functions (label : Option String) : zathura_plugin_functions_t :=
  { minimal_functions with page_get_label := some (fun _ _ => ⟨ZATHURA_ERROR_OK, label⟩) }

/-- A memory in which every document was opened by the plugin that stores the given label. -/
def label_docs (label : Option String) : Documents := fun _ => ⟨⟨label_functions label⟩⟩

/-- The largest value of an `unsigned int`. -/
def UINT_MAX : Nat := 2 ^ UINT_WIDTH - 1

/-- A page whose backend data pointer is `NULL`, in a document that is present. -/
def dataless_page : zathura_page_t :=
  { sample_page with data := none }

/-- A plugin whose page_clear fails with backend code 2. -/
def failing_clear_functions : zathura_plugin_functions_t :=
  { full_functions with page_clear := fun _ _ => ZATHURA_ERROR_BACKEND 2 }

/-- A memory in which every document was opened by the plugin with the failing page_clear. -/
def failing_clear_docs : Documents := fun _ => ⟨⟨failing_clear_functions⟩⟩

/-- A plugin whose page_init succeeds and whose label slot stores a label and then fails
with backend code 5. -/
def failing_label_functions : zathura_plugin_functions_t :=
  { full_functions with
    page_get_label := some (fun _ _ => ⟨ZATHURA_ERROR_BACKEND 5, some "i"⟩) }

/-- A memory in which every document was opened by the plugin with the failing label slot. -/
def failing_label_docs : Documents := fun _ => ⟨⟨failing_label_functions⟩⟩

/-- Modelled from the spec: types.h is not among the sources and the spec gives the kinds
of codes without their numbers. A numbering in the order of the enumeration of zathura: Ok,
an unknown error, out of memory, not implemented, invalid arguments; every other value is
left to the backends. -/
def zathura_error_of_value : Nat → zathura_error_t
  | 0 => ZATHURA_ERROR_OK
  | 2 => ZATHURA_ERROR_OUT_OF_MEMORY
  | 3 => ZATHURA_ERROR_NOT_IMPLEMENTED
  | 4 => ZATHURA_ERROR_INVALID_ARGUMENTS
  | n => ZATHURA_ERROR_BACKEND n

/-- The page of the example in the spec: index 0, width 100, height 200. -/
def region_page : zathura_page_t :=
  { document := some 7, data := some 4096, label := none, height := 200, width := 100,
    index := 0, visible := false, label_is_number := false }

/-- The same page with the index 2 ^ 31 - 1. -/
def region_page_large_index : zathura_page_t :=
  { region_page with index := 2147483647 }

/-- A page so large that its region text does not fit into 63 bytes. -/
def region_page_wide : zathura_page_t :=
  { region_page with height := 123456789012, width := 123456789012 }

/-- A page of height 100. -/
def rounding_page : zathura_page_t :=
  { region_page with height := 100 }

/-- A rectangle whose y2 is the double nearest to 0.005, which is 5764607523034235 / 2 ^ 60
and lies a little above 0.005. -/
def rounding_rectangle : zathura_rectangle_t :=
  { sample_rectangle with y2 := 5764607523034235 / 1152921504606846976 }

/-! Capability-gated content operations. -/

/-- C1. For each of the eight capability-gated content operations, on a present page with a
present document and present required arguments: when the slot of the operation is absent
from the function table, the operation returns nothing, stores NotImplemented in the error
slot of the caller (when there is one), and its trace is empty, so the backend was not
called. -/
theorem absent_capability_not_implemented (docs : Documents) (p : zathura_page_t) (d : Ptr)
    (hd : p.document = some d) (text : String) (image : Ptr) (rectangle : zathura_rectangle_t)
    (error : Option zathura_error_t) :
    ((zathura_plugin_get_functions (zathura_document_get_plugin docs d)).page_search_text = none →
      zathura_page_search_text docs (some p) (some text) error =
        ⟨none, error.map (fun _ => ZATHURA_ERROR_NOT_IMPLEMENTED), []⟩) ∧
    ((zathura_plugin_get_functions (zathura_document_get_plugin docs d)).page_links_get = none →
      zathura_page_links_get docs (some p) error =
        ⟨none, error.map (fun _ => ZATHURA_ERROR_NOT_IMPLEMENTED), []⟩) ∧
    ((zathura_plugin_get_functions (zathura_document_get_plugin docs d)).page_form_fields_get
        = none →
      zathura_page_form_fields_get docs (some p) error =
        ⟨none, error.map (fun _ => ZATHURA_ERROR_NOT_IMPLEMENTED), []⟩) ∧
    ((zathura_plugin_get_functions (zathura_document_get_plugin docs d)).page_images_get = none →
      zathura_page_images_get docs (some p) error =
        ⟨none, error.map (fun _ => ZATHURA_ERROR_NOT_IMPLEMENTED), []⟩) ∧
    ((zathura_plugin_get_functions (zathura_document_get_plugin docs d)).page_image_get_cairo
        = none →
      zathura_page_image_get_cairo docs (some p) (some image) error =
        ⟨none, error.map (fun _ => ZATHURA_ERROR_NOT_IMPLEMENTED), []⟩) ∧
    ((zathura_plugin_get_functions (zathura_document_get_plugin docs d)).page_get_text = none →
      zathura_page_get_text docs (some p) rectangle error =
        ⟨none, error.map (fun _ => ZATHURA_ERROR_NOT_IMPLEMENTED), []⟩) ∧
    ((zathura_plugin_get_functions (zathura_document_get_plugin docs d)).page_get_selection
        = none →
      zathura_page_get_selection docs (some p) rectangle error =
        ⟨none, error.map (fun _ => ZATHURA_ERROR_NOT_IMPLEMENTED), []⟩) ∧
    ((zathura_plugin_get_functions (zathura_document_get_plugin docs d)).page_get_signatures
        = none →
      zathura_page_get_signatures docs (some p) error =
        ⟨none, error.map (fun _ => ZATHURA_ERROR_NOT_IMPLEMENTED), []⟩) := by
  refine ⟨?_, ?_, ?_, ?_, ?_, ?_, ?_, ?_⟩ <;> intro h <;> cases error <;>
    simp [zathura_page_search_text, zathura_page_links_get, zathura_page_form_fields_get,
      zathura_page_images_get, zathura_page_image_get_cairo, zathura_page_get_text,
      zathura_page_get_selection, zathura_page_get_signatures, hd, h, set_error]

/-- Witness of C1 on the sample page, whose document was opened by the minimal plugin:
all eight operations answer NotImplemented with an empty trace. -/
theorem absent_capability_not_implemented_witness :
    sample_page.document = some 7 ∧
    zathura_page_search_text minimal_docs (some sample_page) (some "needle")
        (some ZATHURA_ERROR_OK) = ⟨none, some ZATHURA_ERROR_NOT_IMPLEMENTED, []⟩ ∧
    zathura_page_links_get minimal_docs (some sample_page) (some ZATHURA_ERROR_OK) =
        ⟨none, some ZATHURA_ERROR_NOT_IMPLEMENTED, []⟩ ∧
    zathura_page_form_fields_get minimal_docs (some sample_page) (some ZATHURA_ERROR_OK) =
        ⟨none, some ZATHURA_ERROR_NOT_IMPLEMENTED, []⟩ ∧
    zathura_page_images_get minimal_docs (some sample_page) (some ZATHURA_ERROR_OK) =
        ⟨none, some ZATHURA_ERROR_NOT_IMPLEMENTED, []⟩ ∧
    zathura_page_image_get_cairo minimal_docs (some sample_page) (some 9)
        (some ZATHURA_ERROR_OK) = ⟨none, some ZATHURA_ERROR_NOT_IMPLEMENTED, []⟩ ∧
    zathura_page_get_text minimal_docs (some sample_page) sample_rectangle
        (some ZATHURA_ERROR_OK) = ⟨none, some ZATHURA_ERROR_NOT_IMPLEMENTED, []⟩ ∧
    zathura_page_get_selection minimal_docs (some sample_page) sample_rectangle
        (some ZATHURA_ERROR_OK) = ⟨none, some ZATHURA_ERROR_NOT_IMPLEMENTED, []⟩ ∧
    zathura_page_get_signatures minimal_docs (some sample_page) (some ZATHURA_ERROR_OK) =
        ⟨none, some ZATHURA_ERROR_NOT_IMPLEMENTED, []⟩ :=
  have h := absent_capability_not_implemented minimal_docs sample_page 7 rfl "needle" 9
    sample_rectangle (some ZATHURA_ERROR_OK)
  ⟨rfl, h.1 rfl, h.2.1 rfl, h.2.2.1 rfl, h.2.2.2.1 rfl, h.2.2.2.2.1 rfl, h.2.2.2.2.2.1 rfl,
    h.2.2.2.2.2.2.1 rfl, h.2.2.2.2.2.2.2 rfl⟩

/-- C2. For each content operation, when the page is absent, or its document is absent, or
a required argument is absent (the text of a search, the image of a conversion), the
operation returns nothing and stores InvalidArguments in the error slot of the caller (when
there is one), with an empty trace: the backend is not called. This holds for every
function table, so NotImplemented is never what such a call reports. -/
theorem invalid_arguments_before_capability (docs : Documents) (page : Option zathura_page_t)
    (text : Option String) (image : Option Ptr) (rectangle : zathura_rectangle_t)
    (error : Option zathura_error_t) :
    (page = none ∨ (∃ p, page = some p ∧ p.document = none) →
      zathura_page_search_text docs page text error =
        ⟨none, error.map (fun _ => ZATHURA_ERROR_INVALID_ARGUMENTS), []⟩ ∧
      zathura_page_links_get docs page error =
        ⟨none, error.map (fun _ => ZATHURA_ERROR_INVALID_ARGUMENTS), []⟩ ∧
      zathura_page_form_fields_get docs page error =
        ⟨none, error.map (fun _ => ZATHURA_ERROR_INVALID_ARGUMENTS), []⟩ ∧
      zathura_page_images_get docs page error =
        ⟨none, error.map (fun _ => ZATHURA_ERROR_INVALID_ARGUMENTS), []⟩ ∧
      zathura_page_image_get_cairo docs page image error =
        ⟨none, error.map (fun _ => ZATHURA_ERROR_INVALID_ARGUMENTS), []⟩ ∧
      zathura_page_get_text docs page rectangle error =
        ⟨none, error.map (fun _ => ZATHURA_ERROR_INVALID_ARGUMENTS), []⟩ ∧
      zathura_page_get_selection docs page rectangle error =
        ⟨none, error.map (fun _ => ZATHURA_ERROR_INVALID_ARGUMENTS), []⟩ ∧
      zathura_page_get_signatures docs page error =
        ⟨none, error.map (fun _ => ZATHURA_ERROR_INVALID_ARGUMENTS), []⟩) ∧
    zathura_page_search_text docs page none error =
      ⟨none, error.map (fun _ => ZATHURA_ERROR_INVALID_ARGUMENTS), []⟩ ∧
    zathura_page_image_get_cairo docs page none error =
      ⟨none, error.map (fun _ => ZATHURA_ERROR_INVALID_ARGUMENTS), []⟩ := by
  refine ⟨?_, ?_, ?_⟩
  · rintro (h | ⟨p, h, hd⟩)
    · subst h
      cases error <;>
        simp [zathura_page_search_text, zathura_page_links_get, zathura_page_form_fields_get,
          zathura_page_images_get, zathura_page_image_get_cairo, zathura_page_get_text,
          zathura_page_get_selection, zathura_page_get_signatures, set_error]
    · subst h
      cases error <;>
        simp [zathura_page_search_text, zathura_page_links_get, zathura_page_form_fields_get,
          zathura_page_images_get, zathura_page_image_get_cairo, zathura_page_get_text,
          zathura_page_get_selection, zathura_page_get_signatures, set_error, hd]
  · rcases page with _ | p
    · cases error <;> simp [zathura_page_search_text, set_error]
    · cases hd : p.document <;> cases error <;> simp [zathura_page_search_text, set_error, hd]
  · rcases page with _ | p
    · cases error <;> simp [zathura_page_image_get_cairo, set_error]
    · cases hd : p.document <;> cases error <;>
        simp [zathura_page_image_get_cairo, set_error, hd]

/-- Witness of C2 with the full plugin in memory: on the page whose document pointer is
`NULL`, and on a search of the sample page without a text, the answer is InvalidArguments
and the trace stays empty. -/
theorem invalid_arguments_before_capability_witness :
    zathura_page_search_text full_docs (some orphan_page) (some "needle")
        (some ZATHURA_ERROR_OK) = ⟨none, some ZATHURA_ERROR_INVALID_ARGUMENTS, []⟩ ∧
    zathura_page_get_signatures full_docs (some orphan_page) (some ZATHURA_ERROR_OK) =
        ⟨none, some ZATHURA_ERROR_INVALID_ARGUMENTS, []⟩ ∧
    zathura_page_search_text full_docs (some sample_page) none (some ZATHURA_ERROR_OK) =
        ⟨none, some ZATHURA_ERROR_INVALID_ARGUMENTS, []⟩ :=
  have h := (invalid_arguments_before_capability full_docs (some orphan_page) (some "needle")
    (some 9) sample_rectangle (some ZATHURA_ERROR_OK)).1 (Or.inr ⟨orphan_page, rfl, rfl⟩)
  ⟨h.1, h.2.2.2.2.2.2.2,
    (invalid_arguments_before_capability full_docs (some sample_page) none none
      sample_rectangle (some ZATHURA_ERROR_OK)).2.1⟩

/-- Counterexample to C3 as stated: the signature slot of the full plugin returns list 508
and stores the success code, yet a caller whose error slot held NotImplemented before the
call still finds NotImplemented in it afterwards, not Ok. -/
theorem get_signatures_success_keeps_stale_error :
    Option.map (fun f => f sample_page sample_page.data (some ZATHURA_ERROR_OK))
        (zathura_plugin_get_functions
          (zathura_document_get_plugin full_docs 7)).page_get_signatures
      = some ⟨some 508, some ZATHURA_ERROR_OK⟩ ∧
    (zathura_page_get_signatures full_docs (some sample_page)
        (some ZATHURA_ERROR_NOT_IMPLEMENTED)).ret = some 508 ∧
    (zathura_page_get_signatures full_docs (some sample_page)
        (some ZATHURA_ERROR_NOT_IMPLEMENTED)).error = some ZATHURA_ERROR_NOT_IMPLEMENTED ∧
    (zathura_page_get_signatures full_docs (some sample_page)
        (some ZATHURA_ERROR_NOT_IMPLEMENTED)).error ≠ some ZATHURA_ERROR_OK := by
  refine ⟨rfl, rfl, rfl, ?_⟩
  decide

/-- C3, amended. On a present page with a present document, present arguments and a present
capability, when the backend returns r and stores the success code: each of the seven
forwarding operations (search, links, form fields, images, image conversion, text,
selection) returns exactly r, has called the backend once with the page, its current
backend data, the arguments and the error pointer of the caller, and leaves Ok in the error
slot of the caller whatever the slot held before. Signature extraction returns exactly r,
has called the backend once with the page, its current backend data and the address of a
local code holding Ok, and leaves the error slot of the caller as it was. -/
theorem backend_success_passthrough (docs : Documents) (p : zathura_page_t) (d : Ptr)
    (hd : p.document = some d) (text : String) (image : Ptr) (rectangle : zathura_rectangle_t)
    (error : Option zathura_error_t) :
    (∀ f r, (zathura_plugin_get_functions (zathura_document_get_plugin docs d)).page_search_text
        = some f →
      f p p.data text error = ⟨r, some ZATHURA_ERROR_OK⟩ →
      zathura_page_search_text docs (some p) (some text) error =
        ⟨r, error.map (fun _ => ZATHURA_ERROR_OK), [Event.page_search_text p p.data text error]⟩) ∧
    (∀ f r, (zathura_plugin_get_functions (zathura_document_get_plugin docs d)).page_links_get
        = some f →
      f p p.data error = ⟨r, some ZATHURA_ERROR_OK⟩ →
      zathura_page_links_get docs (some p) error =
        ⟨r, error.map (fun _ => ZATHURA_ERROR_OK), [Event.page_links_get p p.data error]⟩) ∧
    (∀ f r, (zathura_plugin_get_functions (zathura_document_get_plugin docs d)).page_form_fields_get
        = some f →
      f p p.data error = ⟨r, some ZATHURA_ERROR_OK⟩ →
      zathura_page_form_fields_get docs (some p) error =
        ⟨r, error.map (fun _ => ZATHURA_ERROR_OK), [Event.page_form_fields_get p p.data error]⟩) ∧
    (∀ f r, (zathura_plugin_get_functions (zathura_document_get_plugin docs d)).page_images_get
        = some f →
      f p p.data error = ⟨r, some ZATHURA_ERROR_OK⟩ →
      zathura_page_images_get docs (some p) error =
        ⟨r, error.map (fun _ => ZATHURA_ERROR_OK), [Event.page_images_get p p.data error]⟩) ∧
    (∀ f r, (zathura_plugin_get_functions (zathura_document_get_plugin docs d)).page_image_get_cairo
        = some f →
      f p p.data image error = ⟨r, some ZATHURA_ERROR_OK⟩ →
      zathura_page_image_get_cairo docs (some p) (some image) error =
        ⟨r, error.map (fun _ => ZATHURA_ERROR_OK), [Event.page_image_get_cairo p p.data image error]⟩) ∧
    (∀ f r, (zathura_plugin_get_functions (zathura_document_get_plugin docs d)).page_get_text
        = some f →
      f p p.data rectangle error = ⟨r, some ZATHURA_ERROR_OK⟩ →
      zathura_page_get_text docs (some p) rectangle error =
        ⟨r, error.map (fun _ => ZATHURA_ERROR_OK), [Event.page_get_text p p.data rectangle error]⟩) ∧
    (∀ f r, (zathura_plugin_get_functions (zathura_document_get_plugin docs d)).page_get_selection
        = some f →
      f p p.data rectangle error = ⟨r, some ZATHURA_ERROR_OK⟩ →
      zathura_page_get_selection docs (some p) rectangle error =
        ⟨r, error.map (fun _ => ZATHURA_ERROR_OK), [Event.page_get_selection p p.data rectangle error]⟩) ∧
    (∀ f r, (zathura_plugin_get_functions (zathura_document_get_plugin docs d)).page_get_signatures
        = some f →
      f p p.data (some ZATHURA_ERROR_OK) = ⟨r, some ZATHURA_ERROR_OK⟩ →
      zathura_page_get_signatures docs (some p) error =
        ⟨r, error, [Event.page_get_signatures p p.data (some ZATHURA_ERROR_OK)]⟩) := by
  refine ⟨?_, ?_, ?_, ?_, ?_, ?_, ?_, ?_⟩ <;> intro f r hf hr <;> cases error <;>
    simp [zathura_page_search_text, zathura_page_links_get, zathura_page_form_fields_get,
      zathura_page_images_get, zathura_page_image_get_cairo, zathura_page_get_text,
      zathura_page_get_selection, zathura_page_get_signatures, hd, hf, hr, backend_store]

/-- Witness of the amended C3 with the full plugin: a search and a signature query on the
sample page, both started with NotImplemented in the error slot of the caller. -/
theorem backend_success_passthrough_witness :
    zathura_page_search_text full_docs (some sample_page) (some "needle")
        (some ZATHURA_ERROR_NOT_IMPLEMENTED) =
      ⟨some 501, some ZATHURA_ERROR_OK,
        [Event.page_search_text sample_page (some 4096) "needle"
          (some ZATHURA_ERROR_NOT_IMPLEMENTED)]⟩ ∧
    zathura_page_get_signatures full_docs (some sample_page)
        (some ZATHURA_ERROR_NOT_IMPLEMENTED) =
      ⟨some 508, some ZATHURA_ERROR_NOT_IMPLEMENTED,
        [Event.page_get_signatures sample_page (some 4096) (some ZATHURA_ERROR_OK)]⟩ :=
  have h := backend_success_passthrough full_docs sample_page 7 rfl "needle" 9
    sample_rectangle (some ZATHURA_ERROR_NOT_IMPLEMENTED)
  ⟨h.1 _ (some 501) rfl rfl, h.2.2.2.2.2.2.2 _ (some 508) rfl rfl⟩

/-- C4. Signature extraction on a present page with a present document and a present
capability, for every outcome of the backend, where l is the returned list or absence and e
the code in the local after the call: when e is not Ok the operation returns nothing, stores
exactly e in the error slot of the caller (when there is one) and has released l, even a
non-absent one; a non-absent list is returned if and only if l is non-absent and e is Ok,
and the list returned is then l itself. -/
theorem get_signatures_outcome (docs : Documents) (p : zathura_page_t) (d : Ptr)
    (hd : p.document = some d) (error : Option zathura_error_t)
    (f : zathura_page_t → Option Ptr → Option zathura_error_t → backend_result Ptr)
    (hf : (zathura_plugin_get_functions (zathura_document_get_plugin docs d)).page_get_signatures
      = some f)
    (l : Option Ptr) (e : zathura_error_t)
    (hl : (f p p.data (some ZATHURA_ERROR_OK)).ret = l)
    (he : (f p p.data (some ZATHURA_ERROR_OK)).error.getD ZATHURA_ERROR_OK = e) :
    (e ≠ ZATHURA_ERROR_OK →
      zathura_page_get_signatures docs (some p) error =
        ⟨none, error.map (fun _ => e),
          [Event.page_get_signatures p p.data (some ZATHURA_ERROR_OK),
            Event.girara_list_free l]⟩) ∧
    ((zathura_page_get_signatures docs (some p) error).ret ≠ none ↔
      (l ≠ none ∧ e = ZATHURA_ERROR_OK)) ∧
    ((zathura_page_get_signatures docs (some p) error).ret ≠ none →
      (zathura_page_get_signatures docs (some p) error).ret = l) := by
  subst hl he
  by_cases h : (f p p.data (some ZATHURA_ERROR_OK)).error.getD ZATHURA_ERROR_OK
      = ZATHURA_ERROR_OK
  · simp [zathura_page_get_signatures, hd, hf, h]
  · cases error <;> simp [zathura_page_get_signatures, hd, hf, h, set_error]

/-- Witness of C4: the broken signature slot returns list 508 with backend code 3; the
operation returns nothing, reports code 3 and has released list 508. -/
theorem get_signatures_outcome_witness :
    zathura_page_get_signatures broken_signatures_docs (some sample_page)
        (some ZATHURA_ERROR_OK) =
      ⟨none, some (ZATHURA_ERROR_BACKEND 3),
        [Event.page_get_signatures sample_page (some 4096) (some ZATHURA_ERROR_OK),
          Event.girara_list_free (some 508)]⟩ :=
  (get_signatures_outcome broken_signatures_docs sample_page 7 rfl (some ZATHURA_ERROR_OK)
    (fun _ _ _ => ⟨some 508, some (ZATHURA_ERROR_BACKEND 3)⟩) rfl (some 508)
    (ZATHURA_ERROR_BACKEND 3) rfl rfl).1 (by decide)

/-! Construction and destruction. -/

/-- The document pointer of the page handed to the teardown is the one being opened. -/
theorem page_after_init_document (d : Ptr) (index : Nat) (r : page_init_result) :
    (page_after_init (page_before_init d index) r).document = some d := rfl

/-- The label of the page is still absent when page_init is done. -/
theorem page_after_init_label (d : Ptr) (index : Nat) (r : page_init_result) :
    (page_after_init (page_before_init d index) r).label = none := rfl

/-- The flag label_is_number is still false when page_init is done. -/
theorem page_after_init_label_is_number (d : Ptr) (index : Nat) (r : page_init_result) :
    (page_after_init (page_before_init d index) r).label_is_number = false := rfl

/-- The value of `zathura_page_new` when page_init fails: the init call, then the three
steps of `zathura_page_free` on the page as page_init left it. -/
theorem page_new_of_init_failure (docs : Documents) (d : Ptr) (index : Nat)
    (error : Option zathura_error_t)
    (hne : ((zathura_plugin_get_functions (zathura_document_get_plugin docs d)).page_init
      (page_before_init d index)).ret ≠ ZATHURA_ERROR_OK) :
    zathura_page_new docs true (some d) index error =
      ⟨none,
        set_error error ((zathura_plugin_get_functions
          (zathura_document_get_plugin docs d)).page_init (page_before_init d index)).ret,
        [Event.page_init (page_before_init d index),
          Event.page_clear
            (page_after_init (page_before_init d index)
              ((zathura_plugin_get_functions (zathura_document_get_plugin docs d)).page_init
                (page_before_init d index)))
            (page_after_init (page_before_init d index)
              ((zathura_plugin_get_functions (zathura_document_get_plugin docs d)).page_init
                (page_before_init d index))).data,
          Event.g_free_label
            (page_after_init (page_before_init d index)
              ((zathura_plugin_get_functions (zathura_document_get_plugin docs d)).page_init
                (page_before_init d index))).label,
          Event.g_free_page
            (page_after_init (page_before_init d index)
              ((zathura_plugin_get_functions (zathura_document_get_plugin docs d)).page_init
                (page_before_init d index)))]⟩ := by
  simp only [zathura_page_new, zathura_page_free, page_after_init_document]
  simp [hne]

/-- C5. For every present document and every index, once the page object is allocated: if
page_init returns a code c other than Ok, `zathura_page_new` returns no page, stores exactly
c in the error slot of the caller (when there is one), and its trace holds exactly one call
of page_clear, made by the teardown, and no call of page_get_label. -/
theorem page_new_init_failure (docs : Documents) (d : Ptr) (index : Nat)
    (error : Option zathura_error_t) (c : zathura_error_t)
    (hc : ((zathura_plugin_get_functions (zathura_document_get_plugin docs d)).page_init
      (page_before_init d index)).ret = c)
    (hne : c ≠ ZATHURA_ERROR_OK) :
    (zathura_page_new docs true (some d) index error).ret = none ∧
    (zathura_page_new docs true (some d) index error).error = error.map (fun _ => c) ∧
    (zathura_page_new docs true (some d) index error).trace.countP Event.is_page_clear = 1 ∧
    (zathura_page_new docs true (some d) index error).trace.countP Event.is_page_get_label
      = 0 := by
  subst hc
  rw [page_new_of_init_failure docs d index error hne]
  cases error <;> simp [set_error, Event.is_page_clear, Event.is_page_get_label]

/-- Witness of C5: page_init of the failing plugin returns backend code 1; no page comes
back, the caller reads code 1, and the trace is the init call followed by the teardown. -/
theorem page_new_init_failure_witness :
    (zathura_page_new failing_init_docs true (some 7) 2 (some ZATHURA_ERROR_OK)).ret = none ∧
    (zathura_page_new failing_init_docs true (some 7) 2 (some ZATHURA_ERROR_OK)).error
      = some (ZATHURA_ERROR_BACKEND 1) ∧
    (zathura_page_new failing_init_docs true (some 7) 2
      (some ZATHURA_ERROR_OK)).trace.countP Event.is_page_clear = 1 ∧
    (zathura_page_new failing_init_docs true (some 7) 2
      (some ZATHURA_ERROR_OK)).trace.countP Event.is_page_get_label = 0 :=
  page_new_init_failure failing_init_docs 7 2 (some ZATHURA_ERROR_OK) (ZATHURA_ERROR_BACKEND 1)
    rfl (by decide)

/-- The comparison of `strcmp` with zero is equality of the two strings. -/
theorem strcmp_eq_zero_iff (a b : String) : strcmp a b = 0 ↔ a = b := by
  unfold strcmp
  by_cases h : a = b
  · simp [h]
  · by_cases h2 : a.data < b.data <;> simp [h, h2]

/-- What the code computes for every page that `zathura_page_new` returns: label_is_number is
true exactly when the label slot is present and stored a label equal to the decimal digits of
index + 1 reduced modulo 2 ^ 32; without the slot the label is absent and label_is_number is
false. -/
theorem page_new_label_is_number (docs : Documents) (d : Ptr) (index : Nat)
    (error : Option zathura_error_t) (p : zathura_page_t)
    (h : (zathura_page_new docs true (some d) index error).ret = some p) :
    (zathura_page_label_is_number (some p) = true ↔
      ∃ g, (zathura_plugin_get_functions (zathura_document_get_plugin docs d)).page_get_label
          = some g ∧
        (g (page_after_init (page_before_init d index)
            ((zathura_plugin_get_functions (zathura_document_get_plugin docs d)).page_init
              (page_before_init d index)))
          (page_after_init (page_before_init d index)
            ((zathura_plugin_get_functions (zathura_document_get_plugin docs d)).page_init
              (page_before_init d index))).data).label
          = some (g_ascii_dtostr ((index + 1) % 2 ^ UINT_WIDTH))) ∧
    ((zathura_plugin_get_functions (zathura_document_get_plugin docs d)).page_get_label = none →
      p.label = none ∧ zathura_page_label_is_number (some p) = false) := by
  simp only [zathura_page_new] at h
  simp only [Bool.true_eq_false, if_false] at h
  split at h
  · simp at h
  · split at h
    · rename_i hg
      simp only [Option.some.injEq] at h
      subst h
      simp [hg, zathura_page_label_is_number, page_after_init_label,
        page_after_init_label_is_number]
    · rename_i g hg
      split at h
      · simp at h
      · split at h
        · rename_i hl
          simp only [Option.some.injEq] at h
          subst h
          simp [hg, hl, zathura_page_label_is_number, page_after_init_label_is_number]
        · rename_i label hl
          simp only [Option.some.injEq] at h
          subst h
          simp [hg, hl, zathura_page_label_is_number, strcmp_eq_zero_iff]

/-- The claim of C6 on the indices below the largest one: there index + 1 does not wrap, and
label_is_number is true exactly when the label slot is present and stored the decimal
digits of index + 1. -/
theorem page_new_label_is_number_below_largest (docs : Documents) (d : Ptr) (index : Nat)
    (hidx : index < UINT_MAX) (error : Option zathura_error_t) (p : zathura_page_t)
    (h : (zathura_page_new docs true (some d) index error).ret = some p) :
    (zathura_page_label_is_number (some p) = true ↔
      ∃ g, (zathura_plugin_get_functions (zathura_document_get_plugin docs d)).page_get_label
          = some g ∧
        (g (page_after_init (page_before_init d index)
            ((zathura_plugin_get_functions (zathura_document_get_plugin docs d)).page_init
              (page_before_init d index)))
          (page_after_init (page_before_init d index)
            ((zathura_plugin_get_functions (zathura_document_get_plugin docs d)).page_init
              (page_before_init d index))).data).label
          = some (Nat.repr (index + 1))) := by
  have hmod : (index + 1) % 2 ^ UINT_WIDTH = index + 1 := by
    apply Nat.mod_eq_of_lt
    simp only [UINT_MAX, UINT_WIDTH] at hidx ⊢
    omega
  have := (page_new_label_is_number docs d index error p h).1
  rw [hmod] at this
  exact this

/-- C6, the code at the largest index. The label slot stores "4294967296", the decimal
digits of index + 1 for index 4294967295: the page comes back with that label and with
label_is_number false. When the slot stores "0" instead, label_is_number is true: the
comparison is made against index + 1 wrapped to 32 bits. -/
theorem label_is_number_wraps_at_largest_index :
    (zathura_page_get_label
        (zathura_page_new (label_docs (some "4294967296")) true (some 7) 4294967295 none).ret
        none).ret = some (Nat.repr (4294967295 + 1)) ∧
    zathura_page_label_is_number
        (zathura_page_new (label_docs (some "4294967296")) true (some 7) 4294967295 none).ret
      = false ∧
    zathura_page_label_is_number
        (zathura_page_new (label_docs (some "0")) true (some 7) 4294967295 none).ret
      = true := by
  refine ⟨?_, ?_, ?_⟩ <;> decide

/-- C7. The call `zathura_page_free` returns InvalidArguments on an absent page and on a
page whose document is absent, in both cases with no call into the backend in its trace. On
every page with a present document it calls page_clear once, with the page and the current
backend data of the page, then releases label and page, and returns the code of page_clear
as it is, Ok or not. -/
theorem page_free_contract (docs : Documents) (p : zathura_page_t) :
    zathura_page_free docs none = ⟨ZATHURA_ERROR_INVALID_ARGUMENTS, []⟩ ∧
    (p.document = none →
      zathura_page_free docs (some p) =
        ⟨ZATHURA_ERROR_INVALID_ARGUMENTS, [Event.g_free_page p]⟩ ∧
      (zathura_page_free docs (some p)).trace.countP Event.is_backend_call = 0) ∧
    (∀ d, p.document = some d →
      zathura_page_free docs (some p) =
        ⟨(zathura_plugin_get_functions (zathura_document_get_plugin docs d)).page_clear p p.data,
          [Event.page_clear p p.data, Event.g_free_label p.label, Event.g_free_page p]⟩) := by
  refine ⟨rfl, ?_, ?_⟩
  · intro hd
    simp [zathura_page_free, hd, Event.is_backend_call]
  · intro d hd
    simp [zathura_page_free, hd]

/-- Witness of C7: on the page without a document nothing reaches the backend; on the
sample page the failing page_clear was handed the page and its data, and its code 2 is
what the call returns. -/
theorem page_free_contract_witness :
    zathura_page_free failing_clear_docs (some orphan_page) =
      ⟨ZATHURA_ERROR_INVALID_ARGUMENTS, [Event.g_free_page orphan_page]⟩ ∧
    zathura_page_free failing_clear_docs (some sample_page) =
      ⟨ZATHURA_ERROR_BACKEND 2,
        [Event.page_clear sample_page (some 4096), Event.g_free_label (some "1"),
          Event.g_free_page sample_page]⟩ :=
  ⟨((page_free_contract failing_clear_docs orphan_page).2.1 rfl).1,
    (page_free_contract failing_clear_docs sample_page).2.2 7 rfl⟩

/-- The counts of one call of `zathura_page_free` by the document field of the page: with
a document one call of page_clear, one release of the label and one of the page object;
without a document no call of page_clear and one release of the page object. -/
theorem page_free_counts (docs : Documents) (p : zathura_page_t) :
    (p.document ≠ none →
      (zathura_page_free docs (some p)).trace.countP Event.is_page_clear = 1 ∧
      (zathura_page_free docs (some p)).trace.countP Event.is_g_free_label = 1 ∧
      (zathura_page_free docs (some p)).trace.countP Event.is_g_free_page = 1) ∧
    (p.document = none →
      (zathura_page_free docs (some p)).trace.countP Event.is_page_clear = 0 ∧
      (zathura_page_free docs (some p)).trace.countP Event.is_g_free_page = 1) := by
  constructor
  · intro hd
    obtain ⟨d, hd⟩ := Option.ne_none_iff_exists'.mp hd
    simp [zathura_page_free, hd, Event.is_page_clear, Event.is_g_free_label,
      Event.is_g_free_page]
  · intro hd
    simp [zathura_page_free, hd, Event.is_page_clear, Event.is_g_free_page]

/-! Rendering. -/

/-- Counterexample to C9 as stated: the backend data of the page is missing, page, document
and cairo argument are present; `zathura_page_render` does call the render slot, with the
absent data, and returns the code of the slot, here Ok, not InvalidArguments. -/
theorem page_render_without_backend_data :
    dataless_page.data = none ∧
    zathura_page_render full_docs (some dataless_page) (some 11) false =
      ⟨ZATHURA_ERROR_OK, [Event.page_render_cairo dataless_page none 11 false]⟩ ∧
    (zathura_page_render full_docs (some dataless_page) (some 11) false).ret
      ≠ ZATHURA_ERROR_INVALID_ARGUMENTS ∧
    (zathura_page_render full_docs (some dataless_page) (some 11)
      false).trace.countP Event.is_page_render_cairo = 1 := by
  refine ⟨rfl, rfl, ?_, ?_⟩ <;> decide

/-- C9, amended. The call `zathura_page_render` returns InvalidArguments, with an empty
trace and hence without calling the render slot, whenever the page, its document or the
cairo argument is missing; the function table is not consulted, so the answer is never
NotImplemented. In every other call, whatever the backend data of the page, absent
included, it calls the render slot once with the page, its backend data, the cairo
argument and the printing flag, and returns exactly the code of the slot. -/
theorem page_render_contract (docs : Documents) (page : Option zathura_page_t)
    (cairo : Option Ptr) (printing : Bool) :
    (page = none ∨ (∃ p, page = some p ∧ p.document = none) ∨ cairo = none →
      zathura_page_render docs page cairo printing = ⟨ZATHURA_ERROR_INVALID_ARGUMENTS, []⟩) ∧
    (∀ p d c, page = some p → p.document = some d → cairo = some c →
      zathura_page_render docs page cairo printing =
        ⟨(zathura_plugin_get_functions (zathura_document_get_plugin docs d)).page_render_cairo
            p p.data c printing,
          [Event.page_render_cairo p p.data c printing]⟩) := by
  constructor
  · rintro (h | ⟨p, h, hd⟩ | h)
    · subst h; rfl
    · subst h; simp [zathura_page_render, hd]
    · subst h
      rcases page with _ | p
      · rfl
      · cases hd : p.document <;> simp [zathura_page_render, hd]
  · intro p d c hp hd hc
    subst hp hc
    simp [zathura_page_render, hd]

/-- Witness of the amended C9: a missing cairo argument is refused, and a page without
backend data is rendered by the slot. -/
theorem page_render_contract_witness :
    zathura_page_render full_docs (some sample_page) none true =
      ⟨ZATHURA_ERROR_INVALID_ARGUMENTS, []⟩ ∧
    zathura_page_render full_docs (some dataless_page) (some 11) true =
      ⟨ZATHURA_ERROR_OK, [Event.page_render_cairo dataless_page none 11 true]⟩ :=
  ⟨(page_render_contract full_docs (some sample_page) none true).1 (Or.inr (Or.inr rfl)),
    (page_render_contract full_docs (some dataless_page) (some 11) true).2
      dataless_page 7 11 rfl rfl rfl⟩

/-! Construction, the successful path. -/

/-- C10. For every present document and every index, once the page object is allocated: if
page_init returns Ok and the label slot, when the plugin has one, returns Ok, then
`zathura_page_new` returns a page whose index is the given index, whose document is the given
document, and which is not visible. -/
theorem page_new_success (docs : Documents) (d : Ptr) (index : Nat)
    (error : Option zathura_error_t)
    (hinit : ((zathura_plugin_get_functions (zathura_document_get_plugin docs d)).page_init
      (page_before_init d index)).ret = ZATHURA_ERROR_OK)
    (hlabel : ∀ g,
      (zathura_plugin_get_functions (zathura_document_get_plugin docs d)).page_get_label
        = some g →
      (g (page_after_init (page_before_init d index)
          ((zathura_plugin_get_functions (zathura_document_get_plugin docs d)).page_init
            (page_before_init d index)))
        (page_after_init (page_before_init d index)
          ((zathura_plugin_get_functions (zathura_document_get_plugin docs d)).page_init
            (page_before_init d index))).data).ret = ZATHURA_ERROR_OK) :
    ∃ p, (zathura_page_new docs true (some d) index error).ret = some p ∧
      zathura_page_get_index (some p) = index ∧
      zathura_page_get_document (some p) = some d ∧
      zathura_page_get_visibility (some p) = false := by
  simp only [zathura_page_new, Bool.true_eq_false, if_false, hinit, ne_eq, not_true_eq_false]
  split
  · exact ⟨_, rfl, rfl, rfl, rfl⟩
  · rename_i g hg
    simp only [hlabel g hg, ne_eq, not_true_eq_false, if_false]
    split
    · exact ⟨_, rfl, rfl, rfl, rfl⟩
    · exact ⟨_, rfl, rfl, rfl, rfl⟩

/-- Witness of C10: the full plugin opens page 41 of the document at address 7. -/
theorem page_new_success_witness :
    (zathura_page_new full_docs true (some 7) 41 none).ret.isSome = true ∧
    zathura_page_get_index (zathura_page_new full_docs true (some 7) 41 none).ret = 41 ∧
    zathura_page_get_document (zathura_page_new full_docs true (some 7) 41 none).ret
      = some 7 ∧
    zathura_page_get_visibility (zathura_page_new full_docs true (some 7) 41 none).ret
      = false :=
  match page_new_success full_docs 7 41 none rfl (fun g hg => by cases hg; rfl) with
  | ⟨_, hp, hi, hd, hv⟩ => by
    rw [hp]
    exact ⟨rfl, hi, hd, hv⟩

/-! Construction without a document, accessors and setters. -/

/-- C11. With an absent document `zathura_page_new` returns no page and stores
InvalidArguments in the error slot of the caller (when there is one), for every index and
whether or not memory is available; its trace is empty, so neither page_init nor
page_get_label nor page_clear is called. -/
theorem page_new_without_document (docs : Documents) (g_try_malloc0 : Bool) (index : Nat)
    (error : Option zathura_error_t) :
    zathura_page_new docs g_try_malloc0 none index error =
      ⟨none, error.map (fun _ => ZATHURA_ERROR_INVALID_ARGUMENTS), []⟩ ∧
    (zathura_page_new docs g_try_malloc0 none index error).trace.countP Event.is_backend_call
      = 0 := by
  cases error <;> simp [zathura_page_new, set_error]

/-- C12. On an absent page the accessors return their sentinels: width and height -1,
visibility and label_is_number false, index 0, data, label and document absent; and each of
the four setters leaves the absent page absent, so nothing is changed. -/
theorem absent_page_sentinels (error : Option zathura_error_t) (width height : double)
    (visibility : Bool) (data : Option Ptr) :
    zathura_page_get_width none = -1 ∧
    zathura_page_get_height none = -1 ∧
    zathura_page_get_visibility none = false ∧
    zathura_page_label_is_number none = false ∧
    zathura_page_get_index none = 0 ∧
    zathura_page_get_data none = none ∧
    (zathura_page_get_label none error).ret = none ∧
    zathura_page_get_document none = none ∧
    zathura_page_set_width none width = none ∧
    zathura_page_set_height none height = none ∧
    zathura_page_set_visibility none visibility = none ∧
    zathura_page_set_data none data = none :=
  ⟨rfl, rfl, rfl, rfl, rfl, rfl, rfl, rfl, rfl, rfl, rfl, rfl⟩

/-- The accessors on a present page, field by field: seven of them return the stored field
whatever the page holds; the label accessor returns the stored label and leaves the error
slot alone when the document field is present, and returns nothing with InvalidArguments
when it is absent. -/
theorem present_page_accessors (p : zathura_page_t) (error : Option zathura_error_t) :
    zathura_page_get_document (some p) = p.document ∧
    zathura_page_get_index (some p) = p.index ∧
    zathura_page_get_width (some p) = p.width ∧
    zathura_page_get_height (some p) = p.height ∧
    zathura_page_get_visibility (some p) = p.visible ∧
    zathura_page_get_data (some p) = p.data ∧
    zathura_page_label_is_number (some p) = p.label_is_number ∧
    (p.document ≠ none → zathura_page_get_label (some p) error = ⟨p.label, error, []⟩) ∧
    (p.document = none →
      zathura_page_get_label (some p) error =
        ⟨none, error.map (fun _ => ZATHURA_ERROR_INVALID_ARGUMENTS), []⟩) := by
  refine ⟨rfl, rfl, rfl, rfl, rfl, rfl, rfl, ?_, ?_⟩
  · intro hd
    obtain ⟨d, hd⟩ := Option.ne_none_iff_exists'.mp hd
    simp [zathura_page_get_label, hd]
  · intro hd
    cases error <;> simp [zathura_page_get_label, hd, set_error]

/-- C16. On a present page each of the setters of width, height and visibility stores its
argument in its own field, which the matching accessor then returns, and leaves every other
field as it was; no setter, the one of the backend data included, changes the index, the
label or label_is_number. -/
theorem setters_frame (p : zathura_page_t) (w h : double) (v : Bool) (data : Option Ptr) :
    (zathura_page_set_width (some p) w = some { p with width := w } ∧
      zathura_page_get_width (zathura_page_set_width (some p) w) = w) ∧
    (zathura_page_set_height (some p) h = some { p with height := h } ∧
      zathura_page_get_height (zathura_page_set_height (some p) h) = h) ∧
    (zathura_page_set_visibility (some p) v = some { p with visible := v } ∧
      zathura_page_get_visibility (zathura_page_set_visibility (some p) v) = v) ∧
    (zathura_page_get_index (zathura_page_set_width (some p) w) = p.index ∧
      zathura_page_get_index (zathura_page_set_height (some p) h) = p.index ∧
      zathura_page_get_index (zathura_page_set_visibility (some p) v) = p.index ∧
      zathura_page_get_index (zathura_page_set_data (some p) data) = p.index) ∧
    (zathura_page_label_is_number (zathura_page_set_width (some p) w) = p.label_is_number ∧
      zathura_page_label_is_number (zathura_page_set_height (some p) h) = p.label_is_number ∧
      zathura_page_label_is_number (zathura_page_set_visibility (some p) v)
        = p.label_is_number ∧
      zathura_page_label_is_number (zathura_page_set_data (some p) data)
        = p.label_is_number) ∧
    (zathura_page_set_data (some p) data).map zathura_page_t.label = some p.label :=
  ⟨⟨rfl, rfl⟩, ⟨rfl, rfl⟩, ⟨rfl, rfl⟩, ⟨rfl, rfl, rfl, rfl⟩, ⟨rfl, rfl, rfl, rfl⟩, rfl⟩

/-! Construction, failure of the label retrieval. -/

/-- The populated page still points to the document being opened. -/
theorem page_populated_document (docs : Documents) (d : Ptr) (index : Nat) :
    (page_populated docs d index).document = some d := rfl

/-- The backend data of the populated page is what page_init stored. -/
theorem page_populated_data (docs : Documents) (d : Ptr) (index : Nat) :
    (page_populated docs d index).data =
      ((zathura_plugin_get_functions (zathura_document_get_plugin docs d)).page_init
        (page_before_init d index)).data := rfl

/-- C17. When page_init returns Ok and the label slot is present but returns a code c other
than Ok, `zathura_page_new` returns no page and stores exactly c in the error slot of the
caller (when there is one); its trace is the init call, the label call, then the teardown,
in which page_clear is called exactly once, on the page that page_init had populated and
with the backend data page_init had stored. Conversely a page is returned only if page_init
returned Ok and the label slot, when present, returned Ok. -/
theorem page_new_label_failure (docs : Documents) (d : Ptr) (index : Nat)
    (error : Option zathura_error_t) :
    (∀ g c,
      ((zathura_plugin_get_functions (zathura_document_get_plugin docs d)).page_init
        (page_before_init d index)).ret = ZATHURA_ERROR_OK →
      (zathura_plugin_get_functions (zathura_document_get_plugin docs d)).page_get_label
        = some g →
      (g (page_populated docs d index) (page_populated docs d index).data).ret = c →
      c ≠ ZATHURA_ERROR_OK →
      zathura_page_new docs true (some d) index error =
        ⟨none, error.map (fun _ => c),
          [Event.page_init (page_before_init d index),
            Event.page_get_label (page_populated docs d index)
              (page_populated docs d index).data,
            Event.page_clear
              { page_populated docs d index with
                label := (g (page_populated docs d index)
                  (page_populated docs d index).data).label }
              ((zathura_plugin_get_functions (zathura_document_get_plugin docs d)).page_init
                (page_before_init d index)).data,
            Event.g_free_label
              (g (page_populated docs d index) (page_populated docs d index).data).label,
            Event.g_free_page
              { page_populated docs d index with
                label := (g (page_populated docs d index)
                  (page_populated docs d index).data).label }]⟩ ∧
      (zathura_page_new docs true (some d) index error).trace.countP Event.is_page_clear = 1) ∧
    (∀ g_try_malloc0 p,
      (zathura_page_new docs g_try_malloc0 (some d) index error).ret = some p →
      ((zathura_plugin_get_functions (zathura_document_get_plugin docs d)).page_init
        (page_before_init d index)).ret = ZATHURA_ERROR_OK ∧
      ∀ g,
        (zathura_plugin_get_functions (zathura_document_get_plugin docs d)).page_get_label
          = some g →
        (g (page_populated docs d index) (page_populated docs d index).data).ret
          = ZATHURA_ERROR_OK) := by
  constructor
  · intro g c hinit hg hc hne
    subst hc
    have hval : zathura_page_new docs true (some d) index error =
        ⟨none, set_error error
            (g (page_populated docs d index) (page_populated docs d index).data).ret,
          [Event.page_init (page_before_init d index),
            Event.page_get_label (page_populated docs d index)
              (page_populated docs d index).data,
            Event.page_clear
              { page_populated docs d index with
                label := (g (page_populated docs d index)
                  (page_populated docs d index).data).label }
              (page_populated docs d index).data,
            Event.g_free_label
              (g (page_populated docs d index) (page_populated docs d index).data).label,
            Event.g_free_page
              { page_populated docs d index with
                label := (g (page_populated docs d index)
                  (page_populated docs d index).data).label }]⟩ := by
      simp only [zathura_page_new, zathura_page_free, hinit, hg]
      simp only [← page_populated.eq_1 docs d index]
      simp [hne, page_populated_document]
    rw [hval]
    cases error <;> simp [set_error, Event.is_page_clear, page_populated_data]
  · intro m p h
    simp only [zathura_page_new] at h
    split at h
    · simp at h
    · split at h
      · simp at h
      · rename_i hinit
        simp only [ne_eq, not_not] at hinit
        refine ⟨hinit, ?_⟩
        intro g hg
        simp only [hg] at h
        split at h
        · simp at h
        · rename_i hl
          simpa using hl

/-- Witness of C17: the label slot of the failing plugin stores "i" and returns backend
code 5; no page comes back, the caller reads code 5, and page_clear ran once. -/
theorem page_new_label_failure_witness :
    (zathura_page_new failing_label_docs true (some 7) 3 (some ZATHURA_ERROR_OK)).ret = none ∧
    (zathura_page_new failing_label_docs true (some 7) 3 (some ZATHURA_ERROR_OK)).error
      = some (ZATHURA_ERROR_BACKEND 5) ∧
    (zathura_page_new failing_label_docs true (some 7) 3
      (some ZATHURA_ERROR_OK)).trace.countP Event.is_page_clear = 1 :=
  have h := (page_new_label_failure failing_label_docs 7 3 (some ZATHURA_ERROR_OK)).1
    (fun _ _ => ⟨ZATHURA_ERROR_BACKEND 5, some "i"⟩) (ZATHURA_ERROR_BACKEND 5) rfl rfl rfl
    (by decide)
  ⟨congrArg call_result.ret h.1, congrArg call_result.error h.1, h.2⟩

/-! The backend data between construction and destruction. -/

/-- Every page that `zathura_page_new` returns points to the document it was made for and
holds the backend data that page_init stored. -/
theorem page_new_document_and_data (docs : Documents) (g_try_malloc0 : Bool) (d : Ptr)
    (index : Nat) (error : Option zathura_error_t) (p : zathura_page_t)
    (h : (zathura_page_new docs g_try_malloc0 (some d) index error).ret = some p) :
    p.document = some d ∧ p.data = (page_populated docs d index).data := by
  simp only [zathura_page_new] at h
  split at h
  · simp at h
  · split at h
    · simp at h
    · split at h
      · simp only [Option.some.injEq] at h
        subst h
        exact ⟨rfl, rfl⟩
      · split at h
        · simp at h
        · split at h
          · simp only [Option.some.injEq] at h
            subst h
            exact ⟨rfl, rfl⟩
          · simp only [Option.some.injEq] at h
            subst h
            exact ⟨rfl, rfl⟩

/-- A sequence of setter calls without `zathura_page_set_data` keeps the page present and
leaves document, backend data, index, label and label_is_number as they were. -/
theorem run_setters_without_set_data (calls : List setter_call) (p : zathura_page_t)
    (hcalls : ∀ c ∈ calls, c.is_set_data = false) :
    ∃ q, run_setters (some p) calls = some q ∧ q.data = p.data ∧ q.document = p.document ∧
      q.index = p.index ∧ q.label = p.label ∧ q.label_is_number = p.label_is_number := by
  induction calls generalizing p with
  | nil => exact ⟨p, rfl, rfl, rfl, rfl, rfl, rfl⟩
  | cons c cs ih =>
    have hc : c.is_set_data = false := hcalls c (List.mem_cons_self _ _)
    have hcs : ∀ c' ∈ cs, c'.is_set_data = false :=
      fun c' hc' => hcalls c' (List.mem_cons_of_mem _ hc')
    cases c with
    | set_width w =>
      obtain ⟨q, hq, h1, h2, h3, h4, h5⟩ := ih { p with width := w } hcs
      exact ⟨q, hq, h1, h2, h3, h4, h5⟩
    | set_height h =>
      obtain ⟨q, hq, h1, h2, h3, h4, h5⟩ := ih { p with height := h } hcs
      exact ⟨q, hq, h1, h2, h3, h4, h5⟩
    | set_visibility v =>
      obtain ⟨q, hq, h1, h2, h3, h4, h5⟩ := ih { p with visible := v } hcs
      exact ⟨q, hq, h1, h2, h3, h4, h5⟩
    | set_data data => simp [setter_call.is_set_data] at hc

/-- Counterexample to C15 as stated: the full plugin stores backend data 4096 in page 0 of
the document at address 7; one call of the public setter `zathura_page_set_data` puts 1 in
its place, the accessor then returns 1, and `zathura_page_free` hands 1 to page_clear, not
the value that page_init stored. -/
theorem set_data_replaces_backend_data :
    (zathura_page_new full_docs true (some 7) 0 none).ret = some sample_page ∧
    sample_page.data = some 4096 ∧
    zathura_page_get_data (zathura_page_set_data (some sample_page) (some 1)) = some 1 ∧
    zathura_page_free full_docs (zathura_page_set_data (some sample_page) (some 1)) =
      ⟨ZATHURA_ERROR_OK,
        [Event.page_clear { sample_page with data := some 1 } (some 1),
          Event.g_free_label (some "1"),
          Event.g_free_page { sample_page with data := some 1 }]⟩ ∧
    zathura_page_get_data (zathura_page_set_data (some sample_page) (some 1))
      ≠ sample_page.data := by
  refine ⟨rfl, rfl, rfl, rfl, ?_⟩
  decide

/-- C15, amended. A page that `zathura_page_new` returns holds the backend data that
page_init stored. The setters of width, height and visibility leave it unchanged, in any
number and order (accessors, content operations and render do not write to the page at
all), and `zathura_page_free` then hands page_clear the value page_init stored. The public
setter `zathura_page_set_data` replaces the backend data by its argument, and
`zathura_page_free` hands page_clear the replacement. -/
theorem backend_data_until_free (docs : Documents) (d : Ptr) (index : Nat)
    (error : Option zathura_error_t) (p : zathura_page_t)
    (h : (zathura_page_new docs true (some d) index error).ret = some p) :
    p.data = ((zathura_plugin_get_functions (zathura_document_get_plugin docs d)).page_init
      (page_before_init d index)).data ∧
    (∀ calls : List setter_call, (∀ c ∈ calls, c.is_set_data = false) →
      ∃ q, run_setters (some p) calls = some q ∧
        zathura_page_get_data (some q) =
          ((zathura_plugin_get_functions (zathura_document_get_plugin docs d)).page_init
            (page_before_init d index)).data ∧
        (zathura_page_free docs (some q)).trace.filter Event.is_page_clear =
          [Event.page_clear q
            ((zathura_plugin_get_functions (zathura_document_get_plugin docs d)).page_init
              (page_before_init d index)).data]) ∧
    (∀ data, ∃ q, zathura_page_set_data (some p) data = some q ∧
      zathura_page_get_data (some q) = data ∧
      (zathura_page_free docs (some q)).trace.filter Event.is_page_clear =
        [Event.page_clear q data]) := by
  obtain ⟨hdoc, hdata⟩ := page_new_document_and_data docs true d index error p h
  rw [page_populated_data] at hdata
  refine ⟨hdata, ?_, ?_⟩
  · intro calls hcalls
    obtain ⟨q, hq, h1, h2, -, -, -⟩ := run_setters_without_set_data calls p hcalls
    refine ⟨q, hq, ?_, ?_⟩
    · simp [zathura_page_get_data, h1, hdata]
    · have hq_doc : q.document = some d := h2.trans hdoc
      simp [zathura_page_free, hq_doc, Event.is_page_clear, h1, hdata]
  · intro data
    refine ⟨{ p with data := data }, rfl, rfl, ?_⟩
    simp [zathura_page_free, hdoc, Event.is_page_clear]

/-- Witness of the amended C15 on page 0 of the document at address 7, opened by the full
plugin: after a change of width and visibility page_clear still receives 4096. -/
theorem backend_data_until_free_witness :
    (zathura_page_new full_docs true (some 7) 0 none).ret = some sample_page ∧
    sample_page.data = some 4096 ∧
    zathura_page_get_data (run_setters (some sample_page)
        [setter_call.set_width 10, setter_call.set_visibility true]) = some 4096 ∧
    (zathura_page_free full_docs (run_setters (some sample_page)
        [setter_call.set_width 10, setter_call.set_visibility true])).trace.filter
          Event.is_page_clear =
      [Event.page_clear { sample_page with width := 10, visible := true } (some 4096)] := by
  have h := backend_data_until_free full_docs 7 0 none sample_page rfl
  obtain ⟨q, hq, hdata, hfree⟩ :=
    h.2.1 [setter_call.set_width 10, setter_call.set_visibility true] (by decide)
  have hq0 : run_setters (some sample_page)
      [setter_call.set_width 10, setter_call.set_visibility true]
      = some { sample_page with width := 10, visible := true } := rfl
  have hqq : q = { sample_page with width := 10, visible := true } :=
    Option.some.inj (hq.symm.trans hq0)
  subst hqq
  rw [hq0]
  exact ⟨rfl, h.1, hdata, hfree⟩

/-! The two inert release operations. -/

/-- C18. The two release operations ignore their argument and return codes that differ:
`zathura_page_links_free` returns the enumerator of numeric value 0, which is the success
code Ok in every numbering that gives Ok the value 0, for every list and for an absent one;
`zathura_page_form_fields_free` returns NotImplemented for every list; the trace of both is
empty, the list is not released. -/
theorem inert_release_operations (of_value : Nat → zathura_error_t)
    (hzero : of_value 0 = ZATHURA_ERROR_OK) (list other : Option Ptr) :
    zathura_page_links_free of_value list = ⟨of_value 0, []⟩ ∧
    (zathura_page_links_free of_value list).ret = ZATHURA_ERROR_OK ∧
    zathura_page_links_free of_value none = zathura_page_links_free of_value list ∧
    zathura_page_links_free of_value other = zathura_page_links_free of_value list ∧
    zathura_page_form_fields_free list = ⟨ZATHURA_ERROR_NOT_IMPLEMENTED, []⟩ ∧
    zathura_page_form_fields_free other = zathura_page_form_fields_free list ∧
    (zathura_page_links_free of_value list).ret ≠ (zathura_page_form_fields_free other).ret := by
  refine ⟨rfl, hzero, rfl, rfl, rfl, rfl, ?_⟩
  simp [zathura_page_links_free, zathura_page_form_fields_free, hzero]

/-- Witness of C18 with the numbering of zathura, on the list at address 502 and on an
absent list. -/
theorem inert_release_operations_witness :
    zathura_error_of_value 0 = ZATHURA_ERROR_OK ∧
    (zathura_page_links_free zathura_error_of_value (some 502)).ret = ZATHURA_ERROR_OK ∧
    zathura_page_links_free zathura_error_of_value none =
      zathura_page_links_free zathura_error_of_value (some 502) ∧
    zathura_page_form_fields_free (some 502) = ⟨ZATHURA_ERROR_NOT_IMPLEMENTED, []⟩ ∧
    (zathura_page_links_free zathura_error_of_value (some 502)).ret
      ≠ (zathura_page_form_fields_free none).ret :=
  have h := inert_release_operations zathura_error_of_value rfl (some 502) none
  ⟨rfl, h.2.1, h.2.2.1, h.2.2.2.2.1, h.2.2.2.2.2.2⟩

/-! The region text. -/

/-- No decimal digit character is the minus sign. -/
theorem digitChar_ne_minus (k : Nat) (hk : k < 10) : Nat.digitChar k ≠ '-' := by
  interval_cases k <;> decide

/-- The digits of a natural number contain no minus sign. -/
theorem toDigitsCore_no_minus (fuel : Nat) : ∀ (n : Nat) (ds : List Char),
    '-' ∉ ds → '-' ∉ Nat.toDigitsCore 10 fuel n ds := by
  induction fuel with
  | zero => intro n ds h; simpa [Nat.toDigitsCore] using h
  | succ fuel ih =>
    intro n ds h
    have hcons : '-' ∉ Nat.digitChar (n % 10) :: ds := by
      intro hmem
      rcases List.mem_cons.mp hmem with h1 | h1
      · exact digitChar_ne_minus _ (Nat.mod_lt _ (by decide)) h1.symm
      · exact h h1
    simp only [Nat.toDigitsCore]
    split
    · exact hcons
    · exact ih _ _ hcons

/-- The decimal rendering of a natural number contains no minus sign. -/
theorem repr_no_minus (n : Nat) : '-' ∉ (Nat.repr n).data := by
  simp only [Nat.repr, Nat.toDigits, List.asString]
  exact toDigitsCore_no_minus _ _ _ (by simp)

/-- What `%d` prints for a negative number is not the decimal rendering of any natural
number. -/
theorem printf_d_negative_ne_repr (i : Int) (hi : i < 0) (n : Nat) :
    printf_d i ≠ Nat.repr n := by
  cases i with
  | ofNat m => exact absurd hi (by simp)
  | negSucc m =>
    intro h
    have hmem : '-' ∈ (printf_d (Int.negSucc m)).data := by
      simp [printf_d, String.data_append]
    rw [h] at hmem
    exact repr_no_minus n hmem

/-- From index 2 ^ 31 - 1 on, the page number that is printed is index + 1 - 2 ^ 32. -/
theorem region_page_number_large (page : zathura_page_t)
    (hlo : 2 ^ 31 - 1 ≤ page.index) (hhi : page.index < 2 ^ 32) :
    region_page_number page = (page.index : Int) + 1 - 2 ^ 32 := by
  unfold region_page_number int_of_unsigned UINT_WIDTH
  by_cases hmax : page.index = 2 ^ 32 - 1
  · rw [hmax]
    norm_num
  · have hmod : (page.index + 1) % 2 ^ 32 = page.index + 1 := by
      apply Nat.mod_eq_of_lt
      omega
    rw [hmod]
    have : ¬ (page.index + 1 < 2 ^ (32 - 1)) := by
      norm_num
      norm_num at hlo
      omega
    rw [if_neg this]
    push_cast
    ring

/-- Below index 2 ^ 31 - 1 the page number that is printed is index + 1. -/
theorem region_page_number_small (page : zathura_page_t) (h : page.index < 2 ^ 31 - 1) :
    region_page_number page = ((page.index + 1 : Nat) : Int) := by
  unfold region_page_number int_of_unsigned UINT_WIDTH
  have hmod : (page.index + 1) % 2 ^ 32 = page.index + 1 := by
    apply Nat.mod_eq_of_lt
    omega
  rw [hmod]
  have : page.index + 1 < 2 ^ (32 - 1) := by
    norm_num
    norm_num at h
    omega
  rw [if_pos this]

/-- The content of the buffer is the whole region text whenever that text is shorter than
64 bytes, and the count returned is its length. -/
theorem get_region_of_short_text (page : zathura_page_t) (rectangle : zathura_rectangle_t)
    (hlen : (region_text page rectangle).length < 64) :
    zathura_page_get_region page rectangle =
      ⟨region_text page rectangle, (region_text page rectangle).length⟩ := by
  have hle : (region_text page rectangle).data.length ≤ 64 - 1 := by
    have : (region_text page rectangle).data.length < 64 := hlen
    omega
  simp only [zathura_page_get_region, snprintf, List.take_of_length_le hle]
  rfl

/-- The claim of C14 on the indices below 2 ^ 31 - 1: when the text is shorter than 64
bytes the buffer holds the template with the decimal digits of index + 1 as page number,
and the count of its bytes is returned. -/
theorem get_region_below_signed_limit (page : zathura_page_t) (rectangle : zathura_rectangle_t)
    (hidx : page.index < 2 ^ 31 - 1) (hlen : (region_text page rectangle).length < 64) :
    (zathura_page_get_region page rectangle).buffer =
      "page=" ++ Nat.repr (page.index + 1) ++ ",trim=" ++
        printf_2f rectangle.x1 ++ "bp " ++
        printf_2f_value (double_sub page.height rectangle.y2) ++ "bp " ++
        printf_2f_value (double_sub page.width rectangle.x2) ++ "bp " ++
        printf_2f rectangle.y1 ++ "bp,clip" ∧
    (zathura_page_get_region page rectangle).ret =
      (zathura_page_get_region page rectangle).buffer.length := by
  rw [get_region_of_short_text page rectangle hlen]
  refine ⟨?_, rfl⟩
  simp only [region_text, region_page_number_small page hidx]
  rfl

/-- C14, the code on the example of the spec and at index 2 ^ 31 - 1. For index 0, width
100, height 200 and the rectangle (10, 20, 90, 180) the buffer holds exactly the text of the
spec and 48 is returned. For the same page with index 2147483647 the text is shorter than 64
bytes as well, but the page number in it is -2147483648, whereas index + 1 is 2147483648. -/
theorem get_region_example_and_large_index :
    zathura_page_get_region region_page sample_rectangle =
      ⟨"page=1,trim=10.00bp 20.00bp 10.00bp 20.00bp,clip", 48⟩ ∧
    zathura_page_get_region region_page_large_index sample_rectangle =
      ⟨"page=-2147483648,trim=10.00bp 20.00bp 10.00bp 20.00bp,clip", 58⟩ ∧
    Nat.repr (region_page_large_index.index + 1) = "2147483648" := by
  refine ⟨?_, ?_, ?_⟩ <;> with_unfolding_all decide

/-- C19. For every page and rectangle the whole text of `zathura_page_get_region` is the
page number as `%d` prints index + 1 computed in 32-bit unsigned arithmetic, followed by
x1, height - y2, width - x2 and y1 as `%.2f` prints them, the two differences rounded as
doubles. The buffer never holds more than 63 bytes of it and the count returned is the
length n of the whole text: the stored text is the first min(n, 63) bytes of the whole
text, and for the wide page the count returned, 68, exceeds the 63 bytes stored. From index
2 ^ 31 - 1 on the page number printed is index + 1 - 2 ^ 32, and what is printed is not the
decimal rendering of index + 1. -/
theorem get_region_truncation (page : zathura_page_t) (rectangle : zathura_rectangle_t) :
    region_text page rectangle =
      "page=" ++ printf_d (int_of_unsigned ((page.index + 1) % 2 ^ 32)) ++ ",trim=" ++
        printf_2f rectangle.x1 ++ "bp " ++
        printf_2f_value (round_to_double (page.height - rectangle.y2)) ++ "bp " ++
        printf_2f_value (round_to_double (page.width - rectangle.x2)) ++ "bp " ++
        printf_2f rectangle.y1 ++ "bp,clip" ∧
    (zathura_page_get_region page rectangle).buffer.length ≤ 63 ∧
    (zathura_page_get_region page rectangle).ret = (region_text page rectangle).length ∧
    (zathura_page_get_region page rectangle).buffer.data =
      (region_text page rectangle).data.take (min (region_text page rectangle).length 63) ∧
    zathura_page_get_region region_page_wide sample_rectangle =
      ⟨"page=1,trim=10.00bp 123456788832.00bp 123456788922.00bp 20.00bp", 68⟩ ∧
    (2 ^ 31 - 1 ≤ page.index → page.index < 2 ^ 32 →
      region_page_number page = (page.index : Int) + 1 - 2 ^ 32 ∧
      printf_d (region_page_number page) ≠ Nat.repr (page.index + 1)) := by
  refine ⟨rfl, ?_, rfl, ?_, ?_, ?_⟩
  · show (List.take (64 - 1) (region_text page rectangle).data).length ≤ 63
    rw [List.length_take]
    exact Nat.min_le_left _ _
  · simp only [zathura_page_get_region, snprintf]
    rcases Nat.le_total (region_text page rectangle).length 63 with h | h
    · rw [Nat.min_eq_left h]
      have h1 : (region_text page rectangle).data.length ≤ 64 - 1 := h
      rw [List.take_of_length_le h1]
      exact (List.take_length _).symm
    · rw [Nat.min_eq_right h]
  · with_unfolding_all decide
  · intro hlo hhi
    have hnum := region_page_number_large page hlo hhi
    refine ⟨hnum, ?_⟩
    by_cases hmax : page.index = 2 ^ 32 - 1
    · rw [hnum, hmax]
      decide
    · apply printf_d_negative_ne_repr
      rw [hnum]
      omega

/-- Witness of C19 at index 2147483647: the page number printed is -2147483648, which is
not the decimal rendering of 2147483648. -/
theorem get_region_truncation_witness :
    region_page_number region_page_large_index = -2147483648 ∧
    printf_d (region_page_number region_page_large_index) ≠ Nat.repr 2147483648 := by
  obtain ⟨h1, h2⟩ :=
    (get_region_truncation region_page_large_index sample_rectangle).2.2.2.2.2
      (by decide) (by decide)
  exact ⟨h1.trans (by decide), h2⟩

/-! Pages as the public operations produce them. -/

/-- Every setter call keeps a present page present and leaves its document pointer as it
was, the setter of the backend data included. -/
theorem run_setters_document (calls : List setter_call) (p : zathura_page_t) :
    ∃ q, run_setters (some p) calls = some q ∧ q.document = p.document := by
  induction calls generalizing p with
  | nil => exact ⟨p, rfl, rfl⟩
  | cons c cs ih =>
    cases c with
    | set_width w =>
      obtain ⟨q, hq, h1⟩ := ih { p with width := w }
      exact ⟨q, hq, h1⟩
    | set_height h =>
      obtain ⟨q, hq, h1⟩ := ih { p with height := h }
      exact ⟨q, hq, h1⟩
    | set_visibility v =>
      obtain ⟨q, hq, h1⟩ := ih { p with visible := v }
      exact ⟨q, hq, h1⟩
    | set_data data =>
      obtain ⟨q, hq, h1⟩ := ih { p with data := data }
      exact ⟨q, hq, h1⟩

/-- A page that `zathura_page_new` has returned is present and has its document, after any
sequence of setter calls. -/
theorem constructed_page_has_document (docs : Documents) (g_try_malloc0 : Bool) (d : Ptr)
    (index : Nat) (error : Option zathura_error_t) (p : zathura_page_t)
    (calls : List setter_call)
    (h : (zathura_page_new docs g_try_malloc0 (some d) index error).ret = some p) :
    ∃ q, run_setters (some p) calls = some q ∧ q.document = some d := by
  obtain ⟨q, hq, hdoc⟩ := run_setters_document calls p
  exact ⟨q, hq, hdoc.trans (page_new_document_and_data docs g_try_malloc0 d index error p h).1⟩

/-- C8. For every page that the public operations produce, that is a page returned by
`zathura_page_new` and then changed by any sequence of setter calls, one call of
`zathura_page_free` makes exactly one call of page_clear, releases the label exactly once
and releases the page object exactly once. -/
theorem page_free_once (docs : Documents) (g_try_malloc0 : Bool) (d : Ptr) (index : Nat)
    (error : Option zathura_error_t) (p : zathura_page_t) (calls : List setter_call)
    (h : (zathura_page_new docs g_try_malloc0 (some d) index error).ret = some p) :
    (zathura_page_free docs (run_setters (some p) calls)).trace.countP Event.is_page_clear
      = 1 ∧
    (zathura_page_free docs (run_setters (some p) calls)).trace.countP Event.is_g_free_label
      = 1 ∧
    (zathura_page_free docs (run_setters (some p) calls)).trace.countP Event.is_g_free_page
      = 1 := by
  obtain ⟨q, hq, hdoc⟩ :=
    constructed_page_has_document docs g_try_malloc0 d index error p calls h
  rw [hq]
  exact (page_free_counts docs q).1 (by simp [hdoc])

/-- Witness of C8: page 0 of the document at address 7, opened by the full plugin, then
resized and stripped of its backend data, is destroyed with one page_clear and one release
of label and page object. -/
theorem page_free_once_witness :
    (zathura_page_new full_docs true (some 7) 0 none).ret = some sample_page ∧
    (zathura_page_free full_docs (run_setters (some sample_page)
      [setter_call.set_width 10, setter_call.set_data none])).trace.countP Event.is_page_clear
      = 1 ∧
    (zathura_page_free full_docs (run_setters (some sample_page)
      [setter_call.set_width 10, setter_call.set_data none])).trace.countP
        Event.is_g_free_label = 1 ∧
    (zathura_page_free full_docs (run_setters (some sample_page)
      [setter_call.set_width 10, setter_call.set_data none])).trace.countP
        Event.is_g_free_page = 1 :=
  ⟨rfl, page_free_once full_docs true 7 0 none sample_page
    [setter_call.set_width 10, setter_call.set_data none] rfl⟩

/-- C13. For every page that the public operations produce, that is a page returned by
`zathura_page_new` and then changed by any sequence of setter calls, each accessor returns
exactly the stored field: document, index, width, height, visibility, backend data and
label_is_number, which have no error slot, and the label accessor, which returns the stored
label with an empty trace and leaves the error slot of the caller as it was. -/
theorem constructed_page_accessors (docs : Documents) (g_try_malloc0 : Bool) (d : Ptr)
    (index : Nat) (slot : Option zathura_error_t) (p : zathura_page_t)
    (calls : List setter_call) (error : Option zathura_error_t)
    (h : (zathura_page_new docs g_try_malloc0 (some d) index slot).ret = some p) :
    ∃ q, run_setters (some p) calls = some q ∧
      zathura_page_get_document (some q) = q.document ∧
      zathura_page_get_index (some q) = q.index ∧
      zathura_page_get_width (some q) = q.width ∧
      zathura_page_get_height (some q) = q.height ∧
      zathura_page_get_visibility (some q) = q.visible ∧
      zathura_page_get_data (some q) = q.data ∧
      zathura_page_label_is_number (some q) = q.label_is_number ∧
      zathura_page_get_label (some q) error = ⟨q.label, error, []⟩ := by
  obtain ⟨q, hq, hdoc⟩ :=
    constructed_page_has_document docs g_try_malloc0 d index slot p calls h
  refine ⟨q, hq, rfl, rfl, rfl, rfl, rfl, rfl, rfl, ?_⟩
  exact (present_page_accessors q error).2.2.2.2.2.2.2.1 (by simp [hdoc])

/-- Witness of C13: page 0 of the document at address 7, opened by the full plugin and then
made visible; the label accessor returns the label "1" and leaves NotImplemented in the
error slot of the caller. -/
theorem constructed_page_accessors_witness :
    (zathura_page_new full_docs true (some 7) 0 none).ret = some sample_page ∧
    zathura_page_get_label
        (run_setters (some sample_page) [setter_call.set_visibility true])
        (some ZATHURA_ERROR_NOT_IMPLEMENTED) =
      ⟨some "1", some ZATHURA_ERROR_NOT_IMPLEMENTED, []⟩ ∧
    zathura_page_get_visibility
        (run_setters (some sample_page) [setter_call.set_visibility true]) = true := by
  obtain ⟨q, hq, -, -, -, -, hvis, -, -, hlabel⟩ :=
    constructed_page_accessors full_docs true 7 0 none sample_page
      [setter_call.set_visibility true] (some ZATHURA_ERROR_NOT_IMPLEMENTED) rfl
  have hq0 : run_setters (some sample_page) [setter_call.set_visibility true]
      = some { sample_page with visible := true } := rfl
  have hqq : q = { sample_page with visible := true } := Option.some.inj (hq.symm.trans hq0)
  subst hqq
  rw [hq0]
  exact ⟨rfl, hlabel, hvis⟩

/-! The rounding of the two differences of the region text. -/

/-- The difference height - y2 is rounded as a double before it is printed: for height 100
and y2 the double nearest to 0.005 the exact difference lies below 99.995 and would be
printed as 99.99; the rounded difference is printed as 100.00, and the text has 49 bytes. -/
theorem get_region_rounds_difference :
    rounding_page.height - rounding_rectangle.y2 < 99995 / 1000 ∧
    printf_2f (rounding_page.height - rounding_rectangle.y2) = "99.99" ∧
    printf_2f_value (double_sub rounding_page.height rounding_rectangle.y2) = "100.00" ∧
    zathura_page_get_region rounding_page rounding_rectangle =
      ⟨"page=1,trim=10.00bp 100.00bp 10.00bp 20.00bp,clip", 49⟩ := by
  refine ⟨?_, ?_, ?_, ?_⟩
  · norm_num [rounding_page, rounding_rectangle, region_page, sample_rectangle]
  · set_option maxRecDepth 2000 in with_unfolding_all decide
  · set_option maxRecDepth 2000 in with_unfolding_all decide
  · set_option maxRecDepth 2000 in with_unfolding_all decide

/-- The rounding to a double on values that need it: 2 ^ 53 + 1 and 2 ^ 53 + 3 lie halfway
between two doubles and go to the one with the even significand, and a negative value keeps
its sign. -/
theorem round_to_double_examples :
    printf_2f_value (round_to_double 9007199254740993) = "9007199254740992.00" ∧
    printf_2f_value (round_to_double 9007199254740995) = "9007199254740996.00" ∧
    printf_2f_value (round_to_double (-(1 / 3))) = "-0.33" ∧
    printf_2f_value (double_value.infinite false) = "inf" ∧
    printf_2f_value (double_value.infinite true) = "-inf" := by
  refine ⟨?_, ?_, ?_, rfl, rfl⟩ <;> set_option maxRecDepth 2000 in with_unfolding_all decide

end Zathura
